import Mathlib

/-!
Verification development for the quantitative scoring and constrained-allocation
engine of the BombProofInvesting starter repository.

The TypeScript sources are shallowly embedded here:
* `server/services/ranking-engine.ts` — technical indicators, component scoring,
  signal generation (the TimeSeriesAnalyzer / MultiFactorScorer of the spec);
* `server/services/market_data.ts` — the risk/reward scoring service
  (RiskRewardEvaluator);
* `server/services/starter-portfolio.ts` — policy resolution, candidate
  filtering, core/satellite allocation composition and DCA planning.

Modelling conventions:
* JavaScript numbers are modelled as rationals (`ℚ`); division is total on `ℚ`
  (`x / 0 = 0`), and every guarded division in the source is embedded together
  with its guard.  `Math.round` is `⌊x + 1/2⌋` (`jsRound`).
* Accessing `prices[prices.length - 1]` on an empty array yields `undefined`
  in JavaScript; such partial reads are embedded with `Option`
  (`List.getLast?`), so `none` models an `undefined` result.
* `Math.sqrt` has no rational counterpart; it is threaded through the affected
  definitions as an explicit parameter `sqrtFn : ℚ → ℚ`.  No theorem below
  depends on the value of `sqrtFn`.
* `Array.prototype.slice` with negative indices is embedded by the matching
  `List.drop`/`List.take` combination; `jsSlice0 n l` is `l.slice(0, n)` for a
  possibly negative `n`.
* Exceptions of fallible steps (network fetches, JSON parsing) are embedded
  with `Except String`; a `try`/`catch` becomes a `match` on that value.
-/

/-- JavaScript `Math.round`: round half towards positive infinity. -/
def jsRound (q : ℚ) : ℤ := ⌊q + 1 / 2⌋

/-- JavaScript `l.slice(0, n)` for an integer `n` that may be negative:
a nonnegative `n` keeps the first `n` elements, a negative `n` drops the
last `|n|` elements. -/
def jsSlice0 {α : Type} (n : ℤ) (l : List α) : List α :=
  if 0 ≤ n then l.take n.toNat else l.take (l.length - n.natAbs)

/-- Check whether the first list is an initial segment of the second
(character-by-character helper for the JavaScript `String.includes`). -/
def chStarts : List Char → List Char → Bool
  | [], _ => true
  | _ :: _, [] => false
  | a :: as, b :: bs => a == b && chStarts as bs

/-- Check whether `pat` occurs contiguously inside `s`
(JavaScript `String.includes` on the underlying character lists). -/
def chHasSub (pat : List Char) : List Char → Bool
  | [] => chStarts pat []
  | b :: bs => chStarts pat (b :: bs) || chHasSub pat bs

/-- JavaScript `s.includes(pat)`. -/
def strIncludes (s pat : String) : Bool :=
  chHasSub pat.toList s.toList

/-! ## TimeSeriesAnalyzer — indicator functions of `ranking-engine.ts`

All functions are pure operations over an ordered price or volume series,
embedded directly from the `RankingEngine` private methods. -/

/-- Successive differences `l[i+1] - l[i]` of a list. -/
def seqDiffs : List ℚ → List ℚ
  | b :: c :: rest => (c - b) :: seqDiffs (c :: rest)
  | _ => []

/-- The per-step price changes examined by `calculateRSI`: the loop
`for (i = len - period; i < len) { change = prices[i] - prices[i-1]; … }`
walks exactly the successive differences of the last `period + 1` prices. -/
def rsiChanges (prices : List ℚ) (period : ℕ) : List ℚ :=
  seqDiffs (prices.drop (prices.length - (period + 1)))

/-- Accumulated `gains` of `calculateRSI` (`if (change > 0) gains += change`). -/
def rsiGains (prices : List ℚ) (period : ℕ) : ℚ :=
  ((rsiChanges prices period).map fun c => if c > 0 then c else 0).sum

/-- Accumulated `losses` of `calculateRSI` (`else losses -= change`). -/
def rsiLosses (prices : List ℚ) (period : ℕ) : ℚ :=
  ((rsiChanges prices period).map fun c => if c > 0 then 0 else -c).sum

/-- Embedding of `RankingEngine.calculateRSI(prices, period)`. -/
def calculateRSI (prices : List ℚ) (period : ℕ) : ℚ :=
  if prices.length < period + 1 then 50
  else
    let avgGain := rsiGains prices period / (period : ℚ)
    let avgLoss := rsiLosses prices period / (period : ℚ)
    if avgLoss = 0 then 100
    else
      let rs := avgGain / avgLoss
      100 - 100 / (1 + rs)

/-- Embedding of `RankingEngine.calculateSMA(prices, period)`.  On input shorter than the
period the source returns `prices[prices.length - 1]`, which is `undefined`
for an empty array — hence the `Option` result.  `prices.slice(-period)` is
`drop (length - period)` (all call sites use `period ≥ 12`). -/
def calculateSMA (prices : List ℚ) (period : ℕ) : Option ℚ :=
  if prices.length < period then prices.getLast?
  else some ((prices.drop (prices.length - period)).sum / (period : ℚ))

/-- Embedding of `RankingEngine.calculateEMA(prices, period)`: seeded by the SMA of the
first `period` points, then iterated with smoothing factor `2 / (period+1)`. -/
def calculateEMA (prices : List ℚ) (period : ℕ) : Option ℚ :=
  if prices.length < period then prices.getLast?
  else
    (calculateSMA (prices.take period) period).map fun seed =>
      (prices.drop period).foldl
        (fun ema p => (p - ema) * (2 / ((period : ℚ) + 1)) + ema) seed

structure MacdResult where
  value : ℚ
  signal : ℚ
  histogram : ℚ
  deriving DecidableEq

/-- Embedding of `RankingEngine.calculateMACD(prices)`: EMA(12) − EMA(26), with the
documented simplified signal line `macd * 0.9`. -/
def calculateMACD (prices : List ℚ) : Option MacdResult :=
  (calculateEMA prices 12).bind fun ema12 =>
    (calculateEMA prices 26).map fun ema26 =>
      let macdLine := ema12 - ema26
      let signal := macdLine * (9 / 10)
      { value := macdLine, signal := signal, histogram := macdLine - signal }

structure BollingerBands where
  upper : ℚ
  middle : ℚ
  lower : ℚ
  width : ℚ
  deriving DecidableEq

/-- Embedding of `RankingEngine.calculateBollingerBands(prices, period)`; `sqrtFn` stands
for `Math.sqrt`. -/
def calculateBollingerBands (sqrtFn : ℚ → ℚ) (prices : List ℚ) (period : ℕ) :
    Option BollingerBands :=
  (calculateSMA prices period).map fun sma =>
    let relevantPrices := prices.drop (prices.length - period)
    let variance := (relevantPrices.map fun p => (p - sma) ^ 2).sum / (period : ℚ)
    let stdDev := sqrtFn variance
    let upper := sma + stdDev * 2
    let lower := sma - stdDev * 2
    { upper := upper, middle := sma, lower := lower
      width := (upper - lower) / sma * 100 }

/-- Embedding of `RankingEngine.calculateATR(prices, period)`: close-to-close true ranges
(the source reads `high = low = prices[i]`, so each true range collapses to
`|prices[i] - prices[i-1]|`), averaged over the last `period` samples. -/
def calculateATR (prices : List ℚ) (period : ℕ) : ℚ :=
  if prices.length < period + 1 then 0
  else
    let trueRanges := (seqDiffs prices).map fun d => max (max 0 |d|) |d|
    ((trueRanges.drop (trueRanges.length - period)).sum) / (period : ℚ)

/-- Embedding of `RankingEngine.calculateOBV(prices, volumes)`: cumulative signed volume. -/
def calculateOBV (prices volumes : List ℚ) : ℚ :=
  if prices.length ≠ volumes.length ∨ prices.length < 2 then 0
  else
    (List.zipWith (fun d v => if 0 < d then v else if d < 0 then -v else 0)
      (seqDiffs prices) volumes.tail).sum

/-- Embedding of `RankingEngine.calculateVolumeRatio(volumes)`: average of the last 5
volumes over the average of the 15 before them; defaults to 1. -/
def calculateVolumeRatio (volumes : List ℚ) : ℚ :=
  if volumes.length < 20 then 1
  else
    let recent := volumes.drop (volumes.length - 5)
    let older := (volumes.drop (volumes.length - 20)).take 15
    let avgRecent := recent.sum / (recent.length : ℚ)
    let avgOlder := older.sum / (older.length : ℚ)
    if 0 < avgOlder then avgRecent / avgOlder else 1

structure TechnicalIndicators where
  rsi : ℚ
  macd : MacdResult
  sma20 : ℚ
  sma50 : ℚ
  ema12 : ℚ
  ema26 : ℚ
  bollingerBands : BollingerBands
  atr : ℚ
  obv : ℚ
  volumeRatio : ℚ

/-- Embedding of `RankingEngine.calculateTechnicalIndicators(prices, volumes)`.  The
`Option` is `none` exactly when one of the SMA/EMA reads is `undefined`
(empty price series); `analyzeCoin` only calls this with ≥ 30 points. -/
def calculateTechnicalIndicators (sqrtFn : ℚ → ℚ) (prices volumes : List ℚ) :
    Option TechnicalIndicators :=
  (calculateSMA prices 20).bind fun sma20 =>
    (calculateSMA prices 50).bind fun sma50 =>
      (calculateEMA prices 12).bind fun ema12 =>
        (calculateEMA prices 26).bind fun ema26 =>
          (calculateMACD prices).bind fun macd =>
            (calculateBollingerBands sqrtFn prices 20).map fun bb =>
              { rsi := calculateRSI prices 14
                macd := macd
                sma20 := sma20
                sma50 := sma50
                ema12 := ema12
                ema26 := ema26
                bollingerBands := bb
                atr := calculateATR prices 14
                obv := calculateOBV prices volumes
                volumeRatio := calculateVolumeRatio volumes }

/-- Embedding of `RankingEngine.calculatePriceMomentum(prices, period)`: percentage change
against the price `period` bars back. -/
def calculatePriceMomentum (prices : List ℚ) (period : ℕ) : ℚ :=
  if prices.length < period + 1 then 0
  else
    match prices.getLast?, (prices.drop (prices.length - (period + 1))).head? with
    | some current, some past => (current - past) / past * 100
    | _, _ => 0

/-- Embedding of `RankingEngine.calculateROC(prices, period)` — identical computation to
`calculatePriceMomentum` in the source. -/
def calculateROC (prices : List ℚ) (period : ℕ) : ℚ :=
  calculatePriceMomentum prices period

/-- Embedding of `RankingEngine.calculateVelocity(prices)`: mean of the last 4
period-over-period relative changes, × 100. -/
def calculateVelocity (prices : List ℚ) : ℚ :=
  if prices.length < 5 then 0
  else
    let recentPrices := prices.drop (prices.length - 5)
    let changes := List.zipWith (fun a b => (b - a) / a) recentPrices recentPrices.tail
    changes.sum / (changes.length : ℚ) * 100

/-- Embedding of `RankingEngine.calculateTrendStrength(prices)`: percentage deviation of
the latest price from SMA20. -/
def calculateTrendStrength (prices : List ℚ) : ℚ :=
  if prices.length < 20 then 0
  else
    match calculateSMA prices 20, prices.getLast? with
    | some sma20, some current => (current - sma20) / sma20 * 100
    | _, _ => 0

/-- Embedding of `RankingEngine.calculateVolumeMomentum(volumes)`: percentage change of the
average of the last 5 volumes against the average of the 5 before them. -/
def calculateVolumeMomentum (volumes : List ℚ) : ℚ :=
  if volumes.length < 10 then 0
  else
    let recent := volumes.drop (volumes.length - 5)
    let older := (volumes.drop (volumes.length - 10)).take 5
    let avgRecent := recent.sum / (recent.length : ℚ)
    let avgOlder := older.sum / (older.length : ℚ)
    if 0 < avgOlder then (avgRecent - avgOlder) / avgOlder * 100 else 0

structure MomentumIndicators where
  momentum : ℚ
  rateOfChange : ℚ
  priceVelocity : ℚ
  trendStrength : ℚ
  volumeMomentum : ℚ

/-- Embedding of `RankingEngine.calculateMomentum(prices, volumes)`. -/
def calculateMomentum (prices volumes : List ℚ) : MomentumIndicators :=
  { momentum := calculatePriceMomentum prices 10
    rateOfChange := calculateROC prices 10
    priceVelocity := calculateVelocity prices
    trendStrength := calculateTrendStrength prices
    volumeMomentum := calculateVolumeMomentum volumes }

/-- Embedding of `RankingEngine.scoreTechnical(technical, currentPrice)`: starts at 50,
accumulates the fixed deltas and clamps to [0, 100]. -/
def scoreTechnical (technical : TechnicalIndicators) (currentPrice : ℚ) : ℚ :=
  let score : ℚ := 50
  let score := if technical.rsi < 30 then score + 15
    else if technical.rsi > 70 then score - 15
    else score + 5
  let score := if technical.macd.histogram > 0 then score + 10 else score - 10
  let score := if currentPrice > technical.sma20 then score + 10 else score
  let score := if currentPrice > technical.sma50 then score + 10 else score
  let bbPosition := (currentPrice - technical.bollingerBands.lower) /
    (technical.bollingerBands.upper - technical.bollingerBands.lower)
  let score := if bbPosition < 2 / 10 then score + 10
    else if bbPosition > 8 / 10 then score - 10
    else score
  let score := if technical.volumeRatio > 3 / 2 then score + 10
    else if technical.volumeRatio < 1 / 2 then score - 10
    else score
  max 0 (min 100 score)

inductive Trend where
  | bullish
  | bearish
  | neutral
  deriving DecidableEq

/-- Embedding of `RankingEngine.generateSignals(technical, momentum, prices)`.  The source
pushes signal strings while counting bullish/bearish votes; each sequential
push is embedded as a `(signals, bullish, bearish)` triple and the pieces are
concatenated in source order.  `currentPrice` is `prices[prices.length-1]`. -/
def generateSignals (technical : TechnicalIndicators)
    (momentum : MomentumIndicators) (currentPrice : ℚ) : Trend × List String :=
  let rsiSig : List String × ℕ × ℕ :=
    if technical.rsi < 30 then (["RSI oversold"], 1, 0)
    else if technical.rsi > 70 then (["RSI overbought"], 0, 1)
    else ([], 0, 0)
  let macdSig : List String × ℕ × ℕ :=
    if technical.macd.histogram > 0 then (["MACD bullish"], 1, 0)
    else (["MACD bearish"], 0, 1)
  let smaSig : List String × ℕ × ℕ :=
    if currentPrice > technical.sma50 then (["Above 50-day SMA"], 1, 0)
    else (["Below 50-day SMA"], 0, 1)
  let momSig : List String × ℕ × ℕ :=
    if momentum.momentum > 10 then (["Strong momentum"], 1, 0)
    else if momentum.momentum < -10 then (["Weak momentum"], 0, 1)
    else ([], 0, 0)
  let volSig : List String × ℕ × ℕ :=
    if momentum.volumeMomentum > 20 then (["Volume increasing"], 1, 0)
    else ([], 0, 0)
  let signals := rsiSig.1 ++ macdSig.1 ++ smaSig.1 ++ momSig.1 ++ volSig.1
  let bullishCount := rsiSig.2.1 + macdSig.2.1 + smaSig.2.1 + momSig.2.1 + volSig.2.1
  let bearishCount := rsiSig.2.2 + macdSig.2.2 + smaSig.2.2 + momSig.2.2 + volSig.2.2
  let trend : Trend :=
    if bullishCount > bearishCount + 1 then .bullish
    else if bearishCount > bullishCount + 1 then .bearish
    else .neutral
  (trend, signals)

/-! ## RiskRewardEvaluator — the risk scoring service of `market_data.ts`

Conventions for `CoinDetail` fields that the upstream JSON may omit: numeric
fields that the source tests with JavaScript truthiness (`!data.market_cap`,
`data.max_supply && …`) are embedded as `ℚ`/`ℕ` with `0` standing for the
missing value — exactly the cases the truthiness tests treat as falsy — and a
missing `description` is the empty string (also falsy). -/

structure CoinDetail where
  id : String
  symbol : String
  name : String
  description : String
  market_cap : ℚ
  market_cap_rank : ℕ
  total_volume : ℚ
  price_change_percentage_24h : ℚ
  price_change_percentage_7d : ℚ
  price_change_percentage_30d : ℚ
  total_supply : ℚ
  max_supply : ℚ
  circulating_supply : ℚ

structure RiskFactors where
  volatility : ℚ
  marketCap : ℚ
  liquidity : ℚ
  age : ℚ
  development : ℚ
  centralization : ℚ
  regulatory : ℚ
  technical : ℚ
  deriving DecidableEq

structure RewardFactors where
  growth : ℚ
  adoption : ℚ
  innovation : ℚ
  partnerships : ℚ
  utility : ℚ
  community : ℚ
  tokenomics : ℚ
  deriving DecidableEq

structure MarketCapTiers where
  MEGA_CAP : ℚ
  LARGE_CAP : ℚ
  MID_CAP : ℚ
  SMALL_CAP : ℚ
  MICRO_CAP : ℚ

/-- Market-cap tier thresholds of `RiskScoringService.MARKET_CAP_TIERS`. -/
def MARKET_CAP_TIERS : MarketCapTiers :=
  { MEGA_CAP := 100000000000
    LARGE_CAP := 10000000000
    MID_CAP := 1000000000
    SMALL_CAP := 100000000
    MICRO_CAP := 10000000 }

/-- Daily returns extracted from a `[timestamp, price]` history, skipping steps
whose previous price is not positive — the inner loop of
`calculateVolatilityScore`. -/
def pairReturns : List (ℚ × ℚ) → List ℚ
  | a :: b :: rest =>
      if a.2 > 0 then (b.2 - a.2) / a.2 :: pairReturns (b :: rest)
      else pairReturns (b :: rest)
  | _ => []

/-- Embedding of `RiskScoringService.calculateVolatilityScore(prices)`:
standard deviation of daily returns scaled ×1000 and clamped to [0, 100];
`sqrtFn` stands for `Math.sqrt`. -/
def calculateVolatilityScore (sqrtFn : ℚ → ℚ) (prices : List (ℚ × ℚ)) : ℚ :=
  if prices.length < 2 then 50
  else
    let returns := pairReturns prices
    if returns.length = 0 then 50
    else
      let mean := returns.sum / (returns.length : ℚ)
      let variance := (returns.map fun r => (r - mean) ^ 2).sum / (returns.length : ℚ)
      let stdDev := sqrtFn variance
      min 100 (max 0 (stdDev * 1000))

/-- Embedding of `RiskScoringService.calculateMarketCapRisk(marketCap)`. -/
def calculateMarketCapRisk (marketCap : ℚ) : ℚ :=
  if marketCap = 0 ∨ marketCap ≤ 0 then 90
  else if marketCap ≥ MARKET_CAP_TIERS.MEGA_CAP then 5
  else if marketCap ≥ MARKET_CAP_TIERS.LARGE_CAP then 15
  else if marketCap ≥ MARKET_CAP_TIERS.MID_CAP then 30
  else if marketCap ≥ MARKET_CAP_TIERS.SMALL_CAP then 50
  else if marketCap ≥ MARKET_CAP_TIERS.MICRO_CAP then 70
  else 90

/-- Embedding of `RiskScoringService.calculateLiquidityRisk(volume, marketCap)`. -/
def calculateLiquidityRisk (volume marketCap : ℚ) : ℚ :=
  if volume = 0 ∨ volume ≤ 0 then 95
  else if marketCap = 0 ∨ marketCap ≤ 0 then 90
  else
    let volumeRatio := volume / marketCap
    if volumeRatio ≥ 1 / 10 then 10
    else if volumeRatio ≥ 5 / 100 then 20
    else if volumeRatio ≥ 2 / 100 then 35
    else if volumeRatio ≥ 1 / 100 then 50
    else if volumeRatio ≥ 5 / 1000 then 70
    else 90

/-- Embedding of `RiskScoringService.calculateAgeRisk(coinId)`. -/
def calculateAgeRisk (coinId : String) : ℚ :=
  let knownOldCoins := ["bitcoin", "ethereum", "litecoin", "ripple", "bitcoin-cash"]
  let knownNewCoins := ["solana", "cardano", "polkadot", "chainlink", "uniswap"]
  if knownOldCoins.contains coinId then 10
  else if knownNewCoins.contains coinId then 40
  else 60

/-- Embedding of `RiskScoringService.calculateDevelopmentRisk(coinId)`. -/
def calculateDevelopmentRisk (coinId : String) : ℚ :=
  let activeProjects := ["ethereum", "bitcoin", "cardano", "solana", "polkadot"]
  if activeProjects.contains coinId then 20 else 60

/-- Embedding of `RiskScoringService.calculateCentralizationRisk(coinId)`. -/
def calculateCentralizationRisk (coinId : String) : ℚ :=
  let decentralizedCoins := ["bitcoin", "ethereum", "litecoin"]
  let somewhatCentralized := ["cardano", "solana", "polkadot"]
  if decentralizedCoins.contains coinId then 15
  else if somewhatCentralized.contains coinId then 40
  else 70

/-- Embedding of `RiskScoringService.calculateRegulatoryRisk(coinId)`. -/
def calculateRegulatoryRisk (coinId : String) : ℚ :=
  let clearRegulatory := ["bitcoin", "ethereum"]
  let unclearRegulatory := ["monero", "zcash"]
  if clearRegulatory.contains coinId then 20
  else if unclearRegulatory.contains coinId then 80
  else 50

/-- Embedding of `RiskScoringService.calculateTechnicalRisk(coinId)`. -/
def calculateTechnicalRisk (coinId : String) : ℚ :=
  let highTech := ["ethereum", "cardano", "solana", "polkadot"]
  if highTech.contains coinId then 20 else 50

/-- Embedding of `RiskScoringService.calculateGrowthPotential(data)`. -/
def calculateGrowthPotential (data : CoinDetail) : ℚ :=
  let recent24h := data.price_change_percentage_24h
  let recent7d := data.price_change_percentage_7d
  let recent30d := data.price_change_percentage_30d
  let momentumScore := (recent24h + recent7d + recent30d) / 3
  let capAdjustment : ℚ :=
    if data.market_cap > MARKET_CAP_TIERS.LARGE_CAP then 30
    else if data.market_cap > MARKET_CAP_TIERS.MID_CAP then 50
    else if data.market_cap > MARKET_CAP_TIERS.SMALL_CAP then 70
    else 85
  min 100 (max 0 (capAdjustment + momentumScore * 2))

/-- Embedding of `RiskScoringService.calculateAdoptionScore(data)`. -/
def calculateAdoptionScore (data : CoinDetail) : ℚ :=
  let rankScore : ℚ :=
    if data.market_cap_rank ≠ 0 then max 0 (100 - (data.market_cap_rank : ℚ)) else 20
  let volumeScore := min 50 (data.total_volume / 1000000)
  min 100 (rankScore + volumeScore)

/-- Embedding of `RiskScoringService.calculateInnovationScore(coinId)`. -/
def calculateInnovationScore (coinId : String) : ℚ :=
  let highInnovation := ["ethereum", "cardano", "solana", "polkadot", "chainlink"]
  let mediumInnovation := ["litecoin", "bitcoin-cash", "stellar"]
  if highInnovation.contains coinId then 80
  else if mediumInnovation.contains coinId then 50
  else 30

/-- Embedding of `RiskScoringService.calculatePartnershipScore(coinId)`. -/
def calculatePartnershipScore (coinId : String) : ℚ :=
  let strongPartners := ["ethereum", "cardano", "chainlink", "ripple"]
  if strongPartners.contains coinId then 70 else 40

/-- Embedding of `RiskScoringService.calculateUtilityScore(data)`: keyword
search in the lowercased description. -/
def calculateUtilityScore (data : CoinDetail) : ℚ :=
  let description := data.description.toLower
  let utilityScore : ℚ := 30
  let utilityScore :=
    if strIncludes description "smart contract" then utilityScore + 20 else utilityScore
  let utilityScore :=
    if strIncludes description "defi" || strIncludes description "decentralized finance"
    then utilityScore + 15 else utilityScore
  let utilityScore :=
    if strIncludes description "payment" || strIncludes description "currency"
    then utilityScore + 10 else utilityScore
  let utilityScore :=
    if strIncludes description "oracle" || strIncludes description "data"
    then utilityScore + 15 else utilityScore
  let utilityScore :=
    if strIncludes description "governance" then utilityScore + 10 else utilityScore
  min 100 utilityScore

/-- Embedding of `RiskScoringService.calculateCommunityScore(coinId)`. -/
def calculateCommunityScore (coinId : String) : ℚ :=
  let strongCommunity := ["bitcoin", "ethereum", "cardano", "solana"]
  if strongCommunity.contains coinId then 80 else 45

/-- Embedding of `RiskScoringService.calculateTokenomicsScore(data)`. -/
def calculateTokenomicsScore (data : CoinDetail) : ℚ :=
  let score : ℚ := 50
  let score :=
    if data.max_supply ≠ 0 ∧ data.circulating_supply ≠ 0 then
      let circulationRatio := data.circulating_supply / data.max_supply
      let score := if circulationRatio > 8 / 10 then score + 10 else score
      if circulationRatio < 3 / 10 then score - 10 else score
    else score
  let score := if data.max_supply ≠ 0 ∧ data.max_supply > 0 then score + 15 else score - 10
  min 100 (max 0 score)

/-- Embedding of `RiskScoringService.calculateWeightedScore(factors, RISK_WEIGHTS)`:
the generic entry iteration instantiated at the eight risk factors. -/
def calculateWeightedRiskScore (f : RiskFactors) : ℚ :=
  f.volatility * (25 / 100) + f.marketCap * (20 / 100) + f.liquidity * (15 / 100) +
    f.age * (10 / 100) + f.development * (10 / 100) + f.centralization * (8 / 100) +
    f.regulatory * (7 / 100) + f.technical * (5 / 100)

/-- Embedding of `RiskScoringService.calculateWeightedScore(factors, REWARD_WEIGHTS)`:
the generic entry iteration instantiated at the seven reward factors. -/
def calculateWeightedRewardScore (f : RewardFactors) : ℚ :=
  f.growth * (20 / 100) + f.adoption * (18 / 100) + f.innovation * (15 / 100) +
    f.partnerships * (10 / 100) + f.utility * (12 / 100) + f.community * (10 / 100) +
    f.tokenomics * (15 / 100)

inductive Category where
  | core
  | medium
  | highRisk
  | quarantine
  deriving DecidableEq

/-- Embedding of `RiskScoringService.determineCategory(riskScore, rewardScore, data)`.
Note the strict comparison `data.market_cap > LARGE_CAP` in the core branch. -/
def determineCategory (riskScore rewardScore : ℚ) (data : CoinDetail) : Category :=
  if riskScore ≥ 80 ∨ (riskScore ≥ 60 ∧ rewardScore ≤ 20) then .quarantine
  else if riskScore ≤ 30 ∧ data.market_cap > MARKET_CAP_TIERS.LARGE_CAP then .core
  else if rewardScore ≥ 70 ∧ riskScore ≥ 50 then .highRisk
  else .medium

/-- Embedding of `RiskScoringService.calculateConfidence(data, risk, reward)`:
confidence penalties for missing data and for the defaulted volatility. -/
def calculateConfidence (data : CoinDetail) (risk : RiskFactors)
    (_reward : RewardFactors) : ℚ :=
  let confidence : ℚ := 100
  let confidence := if data.market_cap = 0 then confidence - 20 else confidence
  let confidence := if data.total_volume = 0 then confidence - 15 else confidence
  let confidence := if data.description = "" then confidence - 10 else confidence
  let confidence := if data.market_cap_rank = 0 then confidence - 10 else confidence
  let confidence := if risk.volatility = 50 then confidence - 15 else confidence
  max 0 confidence

/-- Embedding of `RiskScoringService.generateExplanation(riskScore, rewardScore,
category, data)`.  Numeric interpolation uses `toString` on the rational in
place of JavaScript float formatting; no theorem below depends on that text. -/
def generateExplanation (riskScore rewardScore : ℚ) (category : Category)
    (data : CoinDetail) : String :=
  let riskLevel := if riskScore ≤ 30 then "low" else if riskScore ≤ 60 then "medium" else "high"
  let rewardLevel := if rewardScore ≤ 30 then "low" else if rewardScore ≤ 60 then "medium" else "high"
  let explanation := data.name ++ " has " ++ riskLevel ++ " risk (" ++ toString riskScore ++
    "/100) and " ++ rewardLevel ++ " reward potential (" ++ toString rewardScore ++ "/100). "
  let tail :=
    match category with
    | .core => "This is a core holding - established, lower-risk cryptocurrency suitable for portfolio foundation."
    | .medium => "This is a medium-risk investment with balanced risk/reward characteristics."
    | .highRisk => "This is a high-risk, high-reward opportunity. Only suitable for risk-tolerant investors."
    | .quarantine => "This asset is in quarantine due to high risk or insufficient data. Avoid or research extensively."
  explanation ++ tail

/-- Embedding of `RiskScoringService.calculateRiskFactors(data)`.  The history
fetch for the volatility factor is the one internally caught fallible step: on
failure the source logs a warning and keeps the neutral default 50. -/
def calculateRiskFactors (sqrtFn : ℚ → ℚ) (data : CoinDetail)
    (historyE : Except String (List (ℚ × ℚ))) : RiskFactors :=
  let volatilityScore : ℚ :=
    match historyE with
    | .ok history => calculateVolatilityScore sqrtFn history
    | .error _ => 50
  { volatility := volatilityScore
    marketCap := calculateMarketCapRisk data.market_cap
    liquidity := calculateLiquidityRisk data.total_volume data.market_cap
    age := calculateAgeRisk data.id
    development := calculateDevelopmentRisk data.id
    centralization := calculateCentralizationRisk data.id
    regulatory := calculateRegulatoryRisk data.id
    technical := calculateTechnicalRisk data.id }

/-- Embedding of `RiskScoringService.calculateRewardFactors(data)`. -/
def calculateRewardFactors (data : CoinDetail) : RewardFactors :=
  { growth := calculateGrowthPotential data
    adoption := calculateAdoptionScore data
    innovation := calculateInnovationScore data.id
    partnerships := calculatePartnershipScore data.id
    utility := calculateUtilityScore data
    community := calculateCommunityScore data.id
    tokenomics := calculateTokenomicsScore data }

/-- Embedding of `RiskScoringService.getDefaultRiskFactors()`. -/
def getDefaultRiskFactors : RiskFactors :=
  { volatility := 80, marketCap := 90, liquidity := 85, age := 70,
    development := 60, centralization := 70, regulatory := 80, technical := 60 }

/-- Embedding of `RiskScoringService.getDefaultRewardFactors()`. -/
def getDefaultRewardFactors : RewardFactors :=
  { growth := 10, adoption := 5, innovation := 10, partnerships := 10,
    utility := 15, community := 10, tokenomics := 20 }

structure ScoreResult where
  riskScore : ℤ
  rewardScore : ℤ
  category : Category
  riskFactors : RiskFactors
  rewardFactors : RewardFactors
  confidence : ℤ
  explanation : String

/-- Embedding of `RiskScoringService.calculateScore(coinId, coinData?)`.  The
`try`/`catch` structure becomes a `match`: `dataE` models the possibly failing
coin-data fetch (and any other failure reaching the top-level `catch`), and
`historyE` models the volatility-history fetch that `calculateRiskFactors`
catches internally.  The `catch` branch is the safe default result; the
function is total, so no error ever reaches the caller. -/
def calculateScore (sqrtFn : ℚ → ℚ) (dataE : Except String CoinDetail)
    (historyE : Except String (List (ℚ × ℚ))) : ScoreResult :=
  match dataE with
  | .error _ =>
      { riskScore := 95
        rewardScore := 5
        category := .quarantine
        riskFactors := getDefaultRiskFactors
        rewardFactors := getDefaultRewardFactors
        confidence := 0
        explanation := "Unable to calculate accurate risk score due to insufficient data." }
  | .ok data =>
      let riskFactors := calculateRiskFactors sqrtFn data historyE
      let rewardFactors := calculateRewardFactors data
      let riskScore := calculateWeightedRiskScore riskFactors
      let rewardScore := calculateWeightedRewardScore rewardFactors
      let category := determineCategory riskScore rewardScore data
      let confidence := calculateConfidence data riskFactors rewardFactors
      let explanation := generateExplanation riskScore rewardScore category data
      { riskScore := jsRound riskScore
        rewardScore := jsRound rewardScore
        category := category
        riskFactors := riskFactors
        rewardFactors := rewardFactors
        confidence := jsRound confidence
        explanation := explanation }

/-! ## PolicyResolver / CandidateFilter / AllocationComposer — `starter-portfolio.ts` -/

inductive Bucket where
  | Low
  | Medium
  | High
  deriving DecidableEq

structure BucketCaps where
  High : ℚ
  Medium : ℚ
  Low : ℚ
  deriving DecidableEq

/-- Lookup `caps[bucket]` on a `{High, Medium, Low}` record. -/
def BucketCaps.get (caps : BucketCaps) : Bucket → ℚ
  | .High => caps.High
  | .Medium => caps.Medium
  | .Low => caps.Low

/-- Record update `caps[bucket] += q` (used for the running bucket totals of
`fallbackSatelliteSelection`). -/
def BucketCaps.add (caps : BucketCaps) (b : Bucket) (q : ℚ) : BucketCaps :=
  match b with
  | .High => { caps with High := caps.High + q }
  | .Medium => { caps with Medium := caps.Medium + q }
  | .Low => { caps with Low := caps.Low + q }

inductive RiskTolerance where
  | Conservative
  | Balanced
  | Aggressive
  deriving DecidableEq

structure RiskProfile where
  name : String
  coreTargetPct : ℚ
  btcTargetPct : ℚ
  ethTargetPct : ℚ
  stableBufferPct : ℚ
  satelliteTargetPct : ℚ
  bucketCaps : BucketCaps
  perAssetCapPct : ℚ
  perCategoryCapPct : ℚ
  holdingsTargetRange : ℤ × ℤ
  liquidityRankLimit : ℕ

/-- Embedding of `StarterPortfolioService.riskProfiles`: the three presets. -/
def riskProfiles : RiskTolerance → RiskProfile
  | .Conservative =>
      { name := "Conservative"
        coreTargetPct := 75 / 100
        btcTargetPct := 50 / 100
        ethTargetPct := 25 / 100
        stableBufferPct := 15 / 100
        satelliteTargetPct := 10 / 100
        bucketCaps := { High := 0, Medium := 60 / 100, Low := 1 }
        perAssetCapPct := 25 / 100
        perCategoryCapPct := 35 / 100
        holdingsTargetRange := (6, 10)
        liquidityRankLimit := 100 }
  | .Balanced =>
      { name := "Balanced"
        coreTargetPct := 55 / 100
        btcTargetPct := 35 / 100
        ethTargetPct := 20 / 100
        stableBufferPct := 5 / 100
        satelliteTargetPct := 40 / 100
        bucketCaps := { High := 15 / 100, Medium := 60 / 100, Low := 1 }
        perAssetCapPct := 15 / 100
        perCategoryCapPct := 40 / 100
        holdingsTargetRange := (8, 12)
        liquidityRankLimit := 200 }
  | .Aggressive =>
      { name := "Aggressive"
        coreTargetPct := 40 / 100
        btcTargetPct := 24 / 100
        ethTargetPct := 16 / 100
        stableBufferPct := 5 / 100
        satelliteTargetPct := 55 / 100
        bucketCaps := { High := 30 / 100, Medium := 60 / 100, Low := 1 }
        perAssetCapPct := 12 / 100
        perCategoryCapPct := 45 / 100
        holdingsTargetRange := (10, 16)
        liquidityRankLimit := 300 }

structure IntakeData where
  riskTolerance : RiskTolerance
  maxDrawdownComfort : ℚ
  monthlyContributionUsd : ℚ
  exclusionsCoins : List String
  minMarketCapUsd : ℚ
  minVolToMcap : ℚ
  holdingsRange : ℤ × ℤ
  rebalance : String
  stablecoinBufferPct : ℚ

structure PolicyData where
  riskTolerance : RiskTolerance
  coreTargetPct : ℚ
  btcTargetPct : ℚ
  ethTargetPct : ℚ
  stableBufferPct : ℚ
  satelliteTargetPct : ℚ
  bucketCaps : BucketCaps
  perAssetCapPct : ℚ
  perCategoryCapPct : ℚ
  holdingsTargetRange : ℤ × ℤ
  rebalance : String

/-- Embedding of `StarterPortfolioService.buildPolicy(intake)`: preset merged
with the user stable-buffer override, core floored at 0.30, satellite target
as the remainder, BTC/ETH scaled by the adjusted-core ratio. -/
def buildPolicy (intake : IntakeData) : PolicyData :=
  let baseProfile := riskProfiles intake.riskTolerance
  let stableBufferPct := max (intake.stablecoinBufferPct / 100) baseProfile.stableBufferPct
  let coreTargetPct := max (3 / 10) (baseProfile.coreTargetPct - stableBufferPct)
  let satelliteTargetPct := 1 - coreTargetPct - stableBufferPct
  { riskTolerance := intake.riskTolerance
    coreTargetPct := coreTargetPct
    btcTargetPct := baseProfile.btcTargetPct * (coreTargetPct / baseProfile.coreTargetPct)
    ethTargetPct := baseProfile.ethTargetPct * (coreTargetPct / baseProfile.coreTargetPct)
    stableBufferPct := stableBufferPct
    satelliteTargetPct := satelliteTargetPct
    bucketCaps := baseProfile.bucketCaps
    perAssetCapPct := baseProfile.perAssetCapPct
    perCategoryCapPct := baseProfile.perCategoryCapPct
    holdingsTargetRange := intake.holdingsRange
    rebalance := intake.rebalance }

inductive Role where
  | core
  | satellite
  | stable
  deriving DecidableEq

structure AllocationItem where
  coinId : String
  symbol : String
  name : String
  role : Role
  bucket : Bucket
  allocationPct : ℚ
  reasons : List String
  risks : List String
  dcaAmountUsd : ℚ
  dcaCadence : String
  deriving DecidableEq

/-- Ranked-coin view consumed by `filterCandidates` / the satellite selectors
(a `CoinScore` restricted to the fields those functions read). -/
structure Candidate where
  coinId : String
  symbol : String
  name : String
  marketCap : ℚ
  volume24h : ℚ
  volatility30d : ℚ
  totalScore : ℚ
  trend : String
  deriving DecidableEq

/-- Volatility bucket assignment used throughout `starter-portfolio.ts`:
`vol < 30 → Low`, `vol < 70 → Medium`, else `High`. -/
def bucketOfVolatility (v : ℚ) : Bucket :=
  if v < 30 then .Low else if v < 70 then .Medium else .High

/-- Embedding of `StarterPortfolioService.filterCandidates(rankedCoins, intake,
policy)`.  The rank of a coin is `rankedCoins.indexOf(coin) + 1`, embedded
with `findIdx` on decidable equality. -/
def filterCandidates (rankedCoins : List Candidate) (intake : IntakeData)
    (policy : PolicyData) : List Candidate :=
  let riskProfile := riskProfiles intake.riskTolerance
  rankedCoins.filter fun coin =>
    if coin.marketCap < intake.minMarketCapUsd then false
    else if coin.volume24h / coin.marketCap < intake.minVolToMcap then false
    else if riskProfile.liquidityRankLimit < (rankedCoins.findIdx fun c => c = coin) + 1
      then false
    else if intake.exclusionsCoins.contains coin.coinId then false
    else if policy.bucketCaps.get (bucketOfVolatility coin.volatility30d) = 0 then false
    else if (["bitcoin", "ethereum"].contains coin.coinId) ||
        (["usd-coin", "tether", "dai", "true-usd", "binance-usd"].contains coin.coinId)
      then false
    else true

/-- Embedding of `StarterPortfolioService.buildCoreAllocations(policy, intake)`:
deterministic BTC/ETH rows plus the optional USDC stable-buffer row. -/
def buildCoreAllocations (policy : PolicyData) (_intake : IntakeData) :
    List AllocationItem :=
  let bitcoinRow : AllocationItem :=
    { coinId := "bitcoin", symbol := "BTC", name := "Bitcoin"
      role := .core, bucket := .Low, allocationPct := policy.btcTargetPct
      reasons := ["Digital gold standard", "Highest liquidity", "Store of value"]
      risks := ["Macro sensitivity", "Regulatory uncertainty"]
      dcaAmountUsd := 0, dcaCadence := "Monthly" }
  let ethereumRow : AllocationItem :=
    { coinId := "ethereum", symbol := "ETH", name := "Ethereum"
      role := .core, bucket := .Medium, allocationPct := policy.ethTargetPct
      reasons := ["Smart contract platform", "DeFi ecosystem", "ETH 2.0 staking"]
      risks := ["L2 competition", "Gas fee volatility", "Execution risk"]
      dcaAmountUsd := 0, dcaCadence := "Monthly" }
  let stableRow : AllocationItem :=
    { coinId := "usd-coin", symbol := "USDC", name := "USD Coin"
      role := .stable, bucket := .Low, allocationPct := policy.stableBufferPct
      reasons := ["Capital preservation", "Buy dip opportunities", "Risk management"]
      risks := ["Issuer risk", "Regulatory risk", "No growth potential"]
      dcaAmountUsd := 0, dcaCadence := "Monthly" }
  if policy.stableBufferPct > 0 then [bitcoinRow, ethereumRow, stableRow]
  else [bitcoinRow, ethereumRow]

/-- Total `allocationPct` of the items in bucket `b` (the `bucketTotals`
accumulation of `validateAndCapSatellites`). -/
def bucketTotal (items : List AllocationItem) (b : Bucket) : ℚ :=
  ((items.filter fun s => s.bucket = b).map fun s => s.allocationPct).sum

/-- Embedding of `StarterPortfolioService.validateAndCapSatellites(satellites,
policy)`: clamp each satellite to the per-asset cap, scale every over-cap
bucket down proportionally, sort descending by allocation, and truncate to
`holdingsTargetRange[1] - 3` slots.  The bucket scaling of the source computes
all bucket totals first and then rescales each over-cap bucket; since the
buckets partition the list, this equals a pointwise map using each item's own
bucket total. -/
def validateAndCapSatellites (satellites : List AllocationItem)
    (policy : PolicyData) : List AllocationItem :=
  let capped := satellites.map fun sat =>
    if sat.allocationPct > policy.perAssetCapPct then
      { sat with allocationPct := policy.perAssetCapPct }
    else sat
  let scaled := capped.map fun s =>
    let total := bucketTotal capped s.bucket
    let cap := policy.bucketCaps.get s.bucket
    if total > cap then { s with allocationPct := s.allocationPct * (cap / total) }
    else s
  let sorted := scaled.mergeSort fun a b => decide (b.allocationPct ≤ a.allocationPct)
  jsSlice0 (policy.holdingsTargetRange.2 - 3) sorted

/-- Loop body of `fallbackSatelliteSelection`: one iteration of
`for (const coin of candidates.slice(0, maxSatellites))`, carrying the pushed
satellites together with the running `bucketLimits`. -/
def fallbackStep (policy : PolicyData) (targetPerSat : ℚ)
    (st : List AllocationItem × BucketCaps) (coin : Candidate) :
    List AllocationItem × BucketCaps :=
  let bucket := bucketOfVolatility coin.volatility30d
  if st.2.get bucket < policy.bucketCaps.get bucket then
    let allocation := min targetPerSat policy.perAssetCapPct
    (st.1 ++
      [{ coinId := coin.coinId, symbol := coin.symbol, name := coin.name
         role := .satellite, bucket := bucket, allocationPct := allocation
         reasons := ["Score: " ++ toString coin.totalScore, "Trend: " ++ coin.trend]
         risks := ["Market volatility", "Project execution risk"]
         dcaAmountUsd := 0, dcaCadence := "Monthly" }],
      st.2.add bucket allocation)
  else st

/-- Embedding of `StarterPortfolioService.fallbackSatelliteSelection(candidates,
policy)`: walk the first `holdingsTargetRange[1] - 3` candidates, assign each
`min(satelliteTarget / maxSatellites, perAssetCapPct)` and push it unless its
bucket's running total has already reached the bucket cap. -/
def fallbackSatelliteSelection (candidates : List Candidate)
    (policy : PolicyData) : List AllocationItem :=
  let maxSatellites : ℤ := policy.holdingsTargetRange.2 - 3
  let targetPerSat : ℚ := policy.satelliteTargetPct / (maxSatellites : ℚ)
  ((jsSlice0 maxSatellites candidates).foldl (fallbackStep policy targetPerSat)
    ([], ⟨0, 0, 0⟩)).1

/-- Shape of one proposal row of the advisory (AI) satellite response. -/
structure SatelliteProposal where
  coin_id : String
  symbol : String
  name : String
  bucket : Bucket
  allocation_pct : ℚ
  reasons : List String
  risks : List String

/-- Embedding of `StarterPortfolioService.selectSatellitesWithAI(...)`: the
external chat call plus `JSON.parse` is modelled by `aiResponse`; a parsed
response is mapped to `AllocationItem`s and validated, while any failure
(`catch`) switches to `fallbackSatelliteSelection`. -/
def selectSatellitesWithAI (aiResponse : Except String (List SatelliteProposal))
    (candidates : List Candidate) (policy : PolicyData) : List AllocationItem :=
  match aiResponse with
  | .ok parsed =>
      let satellites := parsed.map fun sat =>
        { coinId := sat.coin_id, symbol := sat.symbol, name := sat.name
          role := .satellite, bucket := sat.bucket, allocationPct := sat.allocation_pct
          reasons := sat.reasons, risks := sat.risks
          dcaAmountUsd := 0, dcaCadence := "Monthly" : AllocationItem }
      validateAndCapSatellites satellites policy
  | .error _ => fallbackSatelliteSelection candidates policy

/-- Embedding of `StarterPortfolioService.combineAndValidateAllocations(core,
satellites, policy, intake)`: concatenate, and rescale everything by
`1/total` when the total deviates from 1.0 by more than 1% (the holdings-count
checks of the source only emit warnings and do not affect the result). -/
def combineAndValidateAllocations (core satellites : List AllocationItem)
    (_policy : PolicyData) (_intake : IntakeData) : List AllocationItem :=
  let allocation := core ++ satellites
  let totalAllocation := (allocation.map fun i => i.allocationPct).sum
  if |totalAllocation - 1| > (1 / 100 : ℚ) then
    let scaleFactor := 1 / totalAllocation
    allocation.map fun item =>
      { item with allocationPct := item.allocationPct * scaleFactor }
  else allocation

/-- Embedding of `StarterPortfolioService.addDcaPlans(allocation, intake)`:
round each slice of the monthly contribution to the nearest $5, floored at the
$5 minimum. -/
def addDcaPlans (allocation : List AllocationItem) (intake : IntakeData) :
    List AllocationItem :=
  allocation.map fun item =>
    let dcaAmount : ℤ := jsRound (item.allocationPct * intake.monthlyContributionUsd / 5) * 5
    { item with dcaAmountUsd := ((max dcaAmount 5 : ℤ) : ℚ), dcaCadence := "Monthly" }

/-! ## Concrete fixtures used by witnesses and counterexamples -/

/-- Total `allocationPct` of an allocation list (the `totalAllocation`
accumulation of `combineAndValidateAllocations`). -/
def allocTotal (items : List AllocationItem) : ℚ :=
  (items.map fun i => i.allocationPct).sum

/-- Conservative intake with no stable-buffer override. -/
def sampleIntake : IntakeData :=
  { riskTolerance := .Conservative
    maxDrawdownComfort := 30
    monthlyContributionUsd := 500
    exclusionsCoins := []
    minMarketCapUsd := 1000000000
    minVolToMcap := 2 / 100
    holdingsRange := (6, 10)
    rebalance := "Quarterly"
    stablecoinBufferPct := 0 }

/-- Aggressive intake with no stable-buffer override. -/
def aggressiveIntake : IntakeData :=
  { riskTolerance := .Aggressive
    maxDrawdownComfort := 50
    monthlyContributionUsd := 500
    exclusionsCoins := []
    minMarketCapUsd := 1000000000
    minVolToMcap := 2 / 100
    holdingsRange := (10, 16)
    rebalance := "Quarterly"
    stablecoinBufferPct := 0 }

/-- A liquid mid-sized ranked candidate with the given volatility. -/
def sampleCandidate (id : String) (vol : ℚ) : Candidate :=
  { coinId := id, symbol := id, name := id, marketCap := 5000000000
    volume24h := 500000000, volatility30d := vol, totalScore := 80
    trend := "bullish" }

/-- Seven high-volatility candidates (bucket `High`). -/
def highVolCandidates : List Candidate :=
  ["c1", "c2", "c3", "c4", "c5", "c6", "c7"].map fun id => sampleCandidate id 80

/-- A one-element ranked universe that survives `filterCandidates`. -/
def rankedWitnessCoins : List Candidate := [sampleCandidate "solana" 50]

/-- A coin whose market cap sits exactly on the $10B large-cap threshold. -/
def boundaryCoin : CoinDetail :=
  { id := "boundary", symbol := "bnd", name := "Boundary"
    description := "", market_cap := 10000000000, market_cap_rank := 20
    total_volume := 1000000000
    price_change_percentage_24h := 0, price_change_percentage_7d := 0
    price_change_percentage_30d := 0
    total_supply := 0, max_supply := 0, circulating_supply := 0 }

/-- A fully populated mega-cap coin record (bitcoin-shaped). -/
def btcDetail : CoinDetail :=
  { id := "bitcoin", symbol := "btc", name := "Bitcoin"
    description := "digital gold", market_cap := 150000000000, market_cap_rank := 1
    total_volume := 20000000000
    price_change_percentage_24h := 0, price_change_percentage_7d := 0
    price_change_percentage_30d := 0
    total_supply := 21000000, max_supply := 21000000
    circulating_supply := 19000000 }

/-- A bare satellite allocation row with the given bucket and percentage. -/
def plainSatellite (id : String) (b : Bucket) (pct : ℚ) : AllocationItem :=
  { coinId := id, symbol := id, name := id, role := .satellite, bucket := b
    allocationPct := pct, reasons := [], risks := [], dcaAmountUsd := 0
    dcaCadence := "Monthly" }

/-- Three equal thirds: a valid allocation whose percentages sum to 1. -/
def dcaSampleAllocation : List AllocationItem :=
  [plainSatellite "a" .Medium (1 / 3), plainSatellite "b" .Medium (1 / 3),
    plainSatellite "c" .Medium (1 / 3)]

/-- Intake with a $10 monthly contribution. -/
def dcaSampleIntake : IntakeData :=
  { sampleIntake with monthlyContributionUsd := 10 }

/-- An increasing price series of length 31. -/
def rsiWitnessList : List ℚ := (List.range 31).map (Nat.cast : ℕ → ℚ)

/-- Scenario A prices: the strictly increasing 40-point series 1, 2, …, 40. -/
def scenarioAPrices : List ℚ :=
  [1, 2, 3, 4, 5, 6, 7, 8, 9, 10, 11, 12, 13, 14, 15, 16, 17, 18, 19, 20, 21, 22, 23, 24, 25, 26, 27, 28, 29, 30, 31, 32, 33, 34, 35, 36, 37, 38, 39, 40]

/-- Scenario A volumes: constant volume 100 over 40 points. -/
def scenarioAVolumes : List ℚ := List.replicate 40 (100 : ℚ)

/-- The filtered candidate universe of the C8 witness run. -/
def witnessCandidates : List Candidate :=
  filterCandidates rankedWitnessCoins aggressiveIntake (buildPolicy aggressiveIntake)

/-- A single over-cap high-bucket satellite proposal. -/
def capWitnessSatellites : List AllocationItem :=
  [plainSatellite "x" .High (1 / 2)]

/-! ## Theorems -/

/-- C5: for every intake and risk preset, `buildPolicy` resolves
`stableBufferPct = max(user override, preset default)`,
`coreTargetPct = max(0.30, preset core − stable buffer)`,
`satelliteTargetPct = 1 − core − stable`, and scales the preset BTC/ETH
targets by the ratio of the adjusted core to the preset core. -/
theorem buildPolicy_resolution (intake : IntakeData) :
    (buildPolicy intake).stableBufferPct =
        max (intake.stablecoinBufferPct / 100)
          (riskProfiles intake.riskTolerance).stableBufferPct ∧
    (buildPolicy intake).coreTargetPct =
        max (3 / 10) ((riskProfiles intake.riskTolerance).coreTargetPct -
          (buildPolicy intake).stableBufferPct) ∧
    (buildPolicy intake).satelliteTargetPct =
        1 - (buildPolicy intake).coreTargetPct - (buildPolicy intake).stableBufferPct ∧
    (buildPolicy intake).btcTargetPct =
        (riskProfiles intake.riskTolerance).btcTargetPct *
          ((buildPolicy intake).coreTargetPct /
            (riskProfiles intake.riskTolerance).coreTargetPct) ∧
    (buildPolicy intake).ethTargetPct =
        (riskProfiles intake.riskTolerance).ethTargetPct *
          ((buildPolicy intake).coreTargetPct /
            (riskProfiles intake.riskTolerance).coreTargetPct) :=
  ⟨rfl, rfl, rfl, rfl, rfl⟩

/-- C6 (counterexample): a coin whose market cap is exactly the $10B
`LARGE_CAP` threshold is in the large-cap tier by the code's own tier
function (`calculateMarketCapRisk` returns the large-cap value 15), yet
`determineCategory` with `riskScore = 20 ≤ 30` classifies it as `medium`,
not `core`, because the core branch tests `market_cap > LARGE_CAP`
strictly. -/
theorem determineCategory_boundary_counterexample :
    calculateMarketCapRisk boundaryCoin.market_cap = 15 ∧
    determineCategory 20 50 boundaryCoin = Category.medium ∧
    Category.medium ≠ Category.core := by
  refine ⟨?_, ?_, by decide⟩
  · norm_num [calculateMarketCapRisk, boundaryCoin, MARKET_CAP_TIERS]
  · norm_num [determineCategory, boundaryCoin, MARKET_CAP_TIERS]

/-- C6 (amended): `determineCategory` returns `quarantine` when
`risk ≥ 80` or (`risk ≥ 60` and `reward ≤ 20`); otherwise `core` when
`risk ≤ 30` and the market cap strictly exceeds the $10B large-cap
threshold (the boundary value $10B itself is excluded, mega caps are
included); otherwise `high-risk` when `reward ≥ 70` and `risk ≥ 50`;
otherwise `medium`. -/
theorem determineCategory_characterization (riskScore rewardScore : ℚ)
    (data : CoinDetail) :
    determineCategory riskScore rewardScore data =
      (if riskScore ≥ 80 ∨ (riskScore ≥ 60 ∧ rewardScore ≤ 20) then Category.quarantine
       else if riskScore ≤ 30 ∧ data.market_cap > 10000000000 then Category.core
       else if rewardScore ≥ 70 ∧ riskScore ≥ 50 then Category.highRisk
       else Category.medium) :=
  rfl

/-- C7 (amended): the risk-scoring `calculateScore` is a total function — no
error reaches the caller — and when the coin-data fetch (or anything reaching
the top-level `catch`) fails it returns exactly the safe default: category
`quarantine`, confidence 0, riskScore 95, rewardScore 5 and the generic
explanation.  The volatility-history fetch is the exception the claim
overlooks: its failure is caught inside `calculateRiskFactors` and only
substitutes the neutral volatility factor 50. -/
theorem calculateScore_error_default (sqrtFn : ℚ → ℚ) (e : String)
    (historyE : Except String (List (ℚ × ℚ))) (data : CoinDetail) (e2 : String) :
    (calculateScore sqrtFn (.error e) historyE).riskScore = 95 ∧
    (calculateScore sqrtFn (.error e) historyE).rewardScore = 5 ∧
    (calculateScore sqrtFn (.error e) historyE).category = Category.quarantine ∧
    (calculateScore sqrtFn (.error e) historyE).confidence = 0 ∧
    (calculateScore sqrtFn (.error e) historyE).explanation =
      "Unable to calculate accurate risk score due to insufficient data." ∧
    (calculateRiskFactors sqrtFn data (.error e2)).volatility = 50 :=
  ⟨rfl, rfl, rfl, rfl, rfl, rfl⟩

/-- C7 (counterexample): an internal step failing does not always yield the
quarantine default — when only the volatility-history fetch fails for a fully
populated mega-cap coin, `calculateScore` still computes a regular result:
category `core` with confidence 85, not `quarantine` with confidence 0. -/
theorem calculateScore_history_failure_counterexample :
    (calculateScore (fun q => q) (.ok btcDetail) (.error "history fetch failed")).category =
      Category.core ∧
    (calculateScore (fun q => q) (.ok btcDetail) (.error "history fetch failed")).confidence =
      85 ∧
    Category.core ≠ Category.quarantine ∧ (85 : ℤ) ≠ 0 := by
  have hrf : calculateRiskFactors (fun q => q) btcDetail (.error "history fetch failed") =
      { volatility := 50, marketCap := 5, liquidity := 10, age := 10, development := 20,
        centralization := 15, regulatory := 20, technical := 50 } := by
    have hliq : calculateLiquidityRisk btcDetail.total_volume btcDetail.market_cap = 10 := by
      norm_num [calculateLiquidityRisk, btcDetail]
    simp only [calculateRiskFactors, hliq]
    rfl
  refine ⟨?_, ?_, by decide, by decide⟩
  · have h1 : (calculateScore (fun q => q) (.ok btcDetail)
        (.error "history fetch failed")).category =
        determineCategory
          (calculateWeightedRiskScore
            (calculateRiskFactors (fun q => q) btcDetail (.error "history fetch failed")))
          (calculateWeightedRewardScore (calculateRewardFactors btcDetail)) btcDetail := rfl
    rw [h1, hrf]
    norm_num [calculateWeightedRiskScore, determineCategory, MARKET_CAP_TIERS, btcDetail]
  · have h2 : (calculateScore (fun q => q) (.ok btcDetail)
        (.error "history fetch failed")).confidence =
        jsRound (calculateConfidence btcDetail
          (calculateRiskFactors (fun q => q) btcDetail (.error "history fetch failed"))
          (calculateRewardFactors btcDetail)) := rfl
    rw [h2, hrf]
    norm_num [calculateConfidence, btcDetail, jsRound,
      show (("digital gold" : String) = "") = False from eq_false (by decide)]

/-- C4 (counterexample): on the empty price series — which is shorter than the
period — `calculateSMA` and `calculateEMA` do not return a well-defined last
price: the source reads `prices[prices.length - 1]` on an empty array, which
is `undefined` (`none` in this embedding). -/
theorem calculateSMA_calculateEMA_empty_counterexample :
    calculateSMA [] 20 = none ∧ calculateEMA [] 20 = none :=
  ⟨rfl, rfl⟩

/-- C4 (amended): for every non-empty price series shorter than the period,
`calculateSMA` and `calculateEMA` are total and return the last price of the
series instead of failing; the empty series is the one exception, where the
source produces `undefined`. -/
theorem calculateSMA_calculateEMA_short_input (prices : List ℚ) (period : ℕ)
    (hne : prices ≠ []) (hlen : prices.length < period) :
    calculateSMA prices period = some (prices.getLast hne) ∧
    calculateEMA prices period = some (prices.getLast hne) := by
  constructor
  · rw [calculateSMA, if_pos hlen, List.getLast?_eq_getLast _ hne]
  · rw [calculateEMA, if_pos hlen, List.getLast?_eq_getLast _ hne]

/-- Witness for the amended C4 at the concrete series `[3, 7]` with period 20. -/
theorem calculateSMA_calculateEMA_short_input_witness :
    calculateSMA [3, 7] 20 = some 7 ∧ calculateEMA [3, 7] 20 = some 7 :=
  calculateSMA_calculateEMA_short_input [3, 7] 20 (by simp) (by simp)

/-- C10: every allocation item receives the DCA amount
`max(5, round(allocationPct × monthlyContributionUsd / 5) × 5)`, and on the
concrete three-way split with a $10 monthly budget the per-item amounts sum to
$15 — strictly more than the budget — even though the percentages sum to 1. -/
theorem addDcaPlans_formula_and_overallocation :
    (∀ (allocation : List AllocationItem) (intake : IntakeData),
      (addDcaPlans allocation intake).map (fun i => i.dcaAmountUsd) =
        allocation.map fun i =>
          ((max (jsRound (i.allocationPct * intake.monthlyContributionUsd / 5) * 5) 5 : ℤ) : ℚ)) ∧
    allocTotal dcaSampleAllocation = 1 ∧
    ((addDcaPlans dcaSampleAllocation dcaSampleIntake).map fun i => i.dcaAmountUsd).sum = 15 ∧
    (10 : ℚ) < 15 := by
  refine ⟨fun allocation intake => ?_, ?_, ?_, by norm_num⟩
  · rw [addDcaPlans, List.map_map]
    rfl
  · norm_num [allocTotal, dcaSampleAllocation, plainSatellite]
  · norm_num [addDcaPlans, dcaSampleAllocation, dcaSampleIntake, sampleIntake,
      plainSatellite, jsRound]

/-- Helper: the accumulated RSI gains are nonnegative. -/
theorem rsiGains_nonneg (prices : List ℚ) (period : ℕ) :
    0 ≤ rsiGains prices period := by
  apply List.sum_nonneg
  intro x hx
  obtain ⟨c, _, rfl⟩ := List.mem_map.mp hx
  by_cases h : c > 0
  · simp only [if_pos h]
    linarith
  · simp only [if_neg h]
    exact le_refl 0

/-- Helper: the accumulated RSI losses are nonnegative. -/
theorem rsiLosses_nonneg (prices : List ℚ) (period : ℕ) :
    0 ≤ rsiLosses prices period := by
  apply List.sum_nonneg
  intro x hx
  obtain ⟨c, _, rfl⟩ := List.mem_map.mp hx
  by_cases h : c > 0
  · simp only [if_pos h]
    exact le_refl 0
  · simp only [if_neg h]
    linarith [not_lt.mp h]

/-- C3: `calculateRSI` with period 14 returns exactly 50 on any series shorter
than 15 points, and on any series of length ≥ 31 the result lies in [0, 100],
with 100 returned exactly when the accumulated loss over the last 14 steps is
zero. -/
theorem calculateRSI_range (prices : List ℚ) :
    (prices.length < 15 → calculateRSI prices 14 = 50) ∧
    (31 ≤ prices.length →
      0 ≤ calculateRSI prices 14 ∧ calculateRSI prices 14 ≤ 100 ∧
      (rsiLosses prices 14 = 0 → calculateRSI prices 14 = 100)) := by
  constructor
  · intro h
    rw [calculateRSI, if_pos (by omega : prices.length < 14 + 1)]
  · intro h
    have hnotshort : ¬ prices.length < 14 + 1 := by omega
    have hval : calculateRSI prices 14 =
        if rsiLosses prices 14 / ((14 : ℕ) : ℚ) = 0 then 100
        else 100 - 100 / (1 + rsiGains prices 14 / ((14 : ℕ) : ℚ) /
          (rsiLosses prices 14 / ((14 : ℕ) : ℚ))) := by
      rw [calculateRSI, if_neg hnotshort]
    rw [hval]
    by_cases hz : rsiLosses prices 14 / ((14 : ℕ) : ℚ) = 0
    · rw [if_pos hz]
      refine ⟨by norm_num, by norm_num, fun _ => rfl⟩
    · rw [if_neg hz]
      have hl : 0 < rsiLosses prices 14 / ((14 : ℕ) : ℚ) := by
        rcases lt_or_eq_of_le (div_nonneg (rsiLosses_nonneg prices 14)
          (by norm_num : (0 : ℚ) ≤ ((14 : ℕ) : ℚ))) with h' | h'
        · exact h'
        · exact absurd h'.symm hz
      have hg : 0 ≤ rsiGains prices 14 / ((14 : ℕ) : ℚ) :=
        div_nonneg (rsiGains_nonneg prices 14) (by norm_num)
      have hrs : 0 ≤ rsiGains prices 14 / ((14 : ℕ) : ℚ) /
          (rsiLosses prices 14 / ((14 : ℕ) : ℚ)) :=
        div_nonneg hg hl.le
      have hdpos : 0 < 100 / (1 + rsiGains prices 14 / ((14 : ℕ) : ℚ) /
          (rsiLosses prices 14 / ((14 : ℕ) : ℚ))) :=
        div_pos (by norm_num) (by linarith)
      have hdle : 100 / (1 + rsiGains prices 14 / ((14 : ℕ) : ℚ) /
          (rsiLosses prices 14 / ((14 : ℕ) : ℚ))) ≤ 100 :=
        div_le_self (by norm_num) (by linarith)
      refine ⟨by linarith, by linarith, fun hl0 => ?_⟩
      exact absurd (by rw [hl0, zero_div]) hz

/-- Witness for C3 at the short series `[1, 2, 3]` and the 31-point
increasing series `rsiWitnessList`. -/
theorem calculateRSI_range_witness :
    calculateRSI [1, 2, 3] 14 = 50 ∧
    (0 ≤ calculateRSI rsiWitnessList 14 ∧ calculateRSI rsiWitnessList 14 ≤ 100 ∧
      (rsiLosses rsiWitnessList 14 = 0 → calculateRSI rsiWitnessList 14 = 100)) :=
  ⟨(calculateRSI_range [1, 2, 3]).1 (by norm_num),
    (calculateRSI_range rsiWitnessList).2
      (by rw [rsiWitnessList, List.length_map, List.length_range])⟩

/-- Helper: `allocTotal` distributes over concatenation. -/
theorem allocTotal_append (a b : List AllocationItem) :
    allocTotal (a ++ b) = allocTotal a + allocTotal b := by
  simp [allocTotal]

/-- Helper: rescaling every item by `k` multiplies the total by `k`. -/
theorem allocTotal_scale (l : List AllocationItem) (k : ℚ) :
    allocTotal (l.map fun item => { item with allocationPct := item.allocationPct * k }) =
      allocTotal l * k := by
  induction l with
  | nil => simp [allocTotal]
  | cons x xs ih =>
      simp only [allocTotal, List.map_cons, List.sum_cons] at ih ⊢
      rw [ih]
      ring

/-- Helper: a list of nonnegative percentages has a nonnegative total. -/
theorem allocTotal_nonneg (l : List AllocationItem)
    (h : ∀ s ∈ l, 0 ≤ s.allocationPct) : 0 ≤ allocTotal l := by
  apply List.sum_nonneg
  intro x hx
  obtain ⟨i, hi, rfl⟩ := List.mem_map.mp hx
  exact h i hi

/-- Helper: whenever the combined list has positive total, the output of
`combineAndValidateAllocations` sums to 1 within the 1% tolerance — the
renormalization branch rescales to exactly 1, the other branch is within
tolerance by its guard. -/
theorem combineAndValidateAllocations_total (core satellites : List AllocationItem)
    (policy : PolicyData) (intake : IntakeData)
    (hpos : 0 < allocTotal (core ++ satellites)) :
    |allocTotal (combineAndValidateAllocations core satellites policy intake) - 1| ≤
      1 / 100 := by
  have hS : ((core ++ satellites).map fun i => i.allocationPct).sum =
      allocTotal (core ++ satellites) := rfl
  simp only [combineAndValidateAllocations, hS]
  by_cases hdev : |allocTotal (core ++ satellites) - 1| > (1 / 100 : ℚ)
  · rw [if_pos hdev, allocTotal_scale]
    have hne : allocTotal (core ++ satellites) ≠ 0 := ne_of_gt hpos
    rw [mul_one_div, div_self hne]
    norm_num
  · rw [if_neg hdev]
    exact le_of_not_lt hdev

/-- Helper: every resolved policy has strictly positive BTC, ETH and stable
targets (the adjusted core is floored at 0.30 and every preset has positive
BTC/ETH shares and a positive default stable buffer). -/
theorem buildPolicy_targets_positive (intake : IntakeData) :
    0 < (buildPolicy intake).btcTargetPct ∧ 0 < (buildPolicy intake).ethTargetPct ∧
    0 < (buildPolicy intake).stableBufferPct := by
  rcases hrt : intake.riskTolerance with _ | _ | _ <;>
    · simp only [buildPolicy, riskProfiles, hrt]
      refine ⟨?_, ?_, ?_⟩
      · apply mul_pos (by norm_num)
        apply div_pos _ (by norm_num)
        exact lt_of_lt_of_le (by norm_num) (le_max_left _ _)
      · apply mul_pos (by norm_num)
        apply div_pos _ (by norm_num)
        exact lt_of_lt_of_le (by norm_num) (le_max_left _ _)
      · exact lt_of_lt_of_le (by norm_num) (le_max_right _ _)

/-- C1: for every intake (hence every valid resolved policy) and every
satellite list with nonnegative percentages — including the empty list — the
composed portfolio returned by `combineAndValidateAllocations` over the
deterministic core rows sums to 1.0 within the 1% tolerance: if the
concatenated total deviates from 1.0 by more than 0.01, every item is rescaled
by `1/total`, which makes the total exactly 1. -/
theorem portfolio_sum_within_tolerance (intake : IntakeData)
    (satellites : List AllocationItem)
    (hsat : ∀ s ∈ satellites, 0 ≤ s.allocationPct) :
    |allocTotal (combineAndValidateAllocations
        (buildCoreAllocations (buildPolicy intake) intake) satellites
        (buildPolicy intake) intake) - 1| ≤ 1 / 100 := by
  apply combineAndValidateAllocations_total
  rw [allocTotal_append]
  obtain ⟨hb, he, hs⟩ := buildPolicy_targets_positive intake
  have h1 : 0 < allocTotal (buildCoreAllocations (buildPolicy intake) intake) := by
    simp only [buildCoreAllocations, if_pos hs]
    simp only [allocTotal, List.map_cons, List.map_nil, List.sum_cons, List.sum_nil]
    linarith
  have h2 : 0 ≤ allocTotal satellites := allocTotal_nonneg _ hsat
  linarith

/-- Witness for C1: the Conservative policy with the empty satellite list. -/
theorem portfolio_sum_within_tolerance_witness :
    |allocTotal (combineAndValidateAllocations
        (buildCoreAllocations (buildPolicy sampleIntake) sampleIntake) []
        (buildPolicy sampleIntake) sampleIntake) - 1| ≤ 1 / 100 :=
  portfolio_sum_within_tolerance sampleIntake []
    (fun s hs => absurd hs (List.not_mem_nil s))


/-- Helper: a `jsSlice0` result is a sublist of its input (both branches are a
`take`). -/
theorem jsSlice0_sublist {α : Type} (n : ℤ) (l : List α) :
    (jsSlice0 n l).Sublist l := by
  unfold jsSlice0
  split
  · exact List.take_sublist _ _
  · exact List.take_sublist _ _

/-- Helper: `bucketTotal` coincides with the total of the bucket filter. -/
theorem bucketTotal_eq_allocTotal_filter (l : List AllocationItem) (b : Bucket) :
    bucketTotal l b = allocTotal (l.filter fun s => s.bucket = b) := rfl

/-- Helper: filtering a bucket commutes with a bucket-preserving map. -/
theorem filter_bucket_map (f : AllocationItem → AllocationItem)
    (hf : ∀ s, (f s).bucket = s.bucket) (l : List AllocationItem) (b : Bucket) :
    ((l.map f).filter fun s => s.bucket = b) =
      (l.filter fun s => s.bucket = b).map f := by
  induction l with
  | nil => rfl
  | cons x xs ih =>
      simp only [List.map_cons, List.filter_cons, hf x]
      by_cases hb : x.bucket = b
      · simp [hb, ih]
      · simp [hb, ih]

/-- Helper: permuted allocation lists have equal bucket totals. -/
theorem bucketTotal_perm {l1 l2 : List AllocationItem} (h : l1.Perm l2)
    (b : Bucket) : bucketTotal l1 b = bucketTotal l2 b :=
  ((h.filter _).map _).sum_eq

/-- Helper: a sublist of a nonnegative allocation list has a smaller or equal
bucket total. -/
theorem bucketTotal_sublist_le {l1 l2 : List AllocationItem} (h : l1.Sublist l2)
    (hnn : ∀ s ∈ l2, 0 ≤ s.allocationPct) (b : Bucket) :
    bucketTotal l1 b ≤ bucketTotal l2 b := by
  apply List.Sublist.sum_le_sum ((h.filter _).map _)
  intro x hx
  obtain ⟨s, hs, rfl⟩ := List.mem_map.mp hx
  exact hnn s (List.mem_filter.mp hs).1

/-- C2 (amended): after `validateAndCapSatellites` — the per-asset clamp, the
per-bucket proportional scaling, the sort and the truncation — every satellite
allocation is nonnegative and at most `policy.perAssetCapPct`, and every
bucket total is at most `policy.bucketCaps[bucket]`, for any proposal list
with nonnegative percentages and any policy with nonnegative caps.  These
caps govern only the satellite list: the deterministic core rows and the
final renormalization of `combineAndValidateAllocations` are not subject to
them (see the counterexample). -/
theorem validateAndCapSatellites_respects_caps (satellites : List AllocationItem)
    (policy : PolicyData)
    (hnn : ∀ s ∈ satellites, 0 ≤ s.allocationPct)
    (hasset : 0 ≤ policy.perAssetCapPct)
    (hcaps : ∀ b, 0 ≤ policy.bucketCaps.get b) :
    (∀ s ∈ validateAndCapSatellites satellites policy,
      0 ≤ s.allocationPct ∧ s.allocationPct ≤ policy.perAssetCapPct) ∧
    (∀ b, bucketTotal (validateAndCapSatellites satellites policy) b ≤
      policy.bucketCaps.get b) := by
  classical
  set capped := satellites.map fun sat =>
    if sat.allocationPct > policy.perAssetCapPct then
      { sat with allocationPct := policy.perAssetCapPct }
    else sat with hcapped
  set scaled := capped.map fun s =>
    if bucketTotal capped s.bucket > policy.bucketCaps.get s.bucket then
      { s with allocationPct :=
          s.allocationPct * (policy.bucketCaps.get s.bucket / bucketTotal capped s.bucket) }
    else s with hscaled
  have hres : validateAndCapSatellites satellites policy =
      jsSlice0 (policy.holdingsTargetRange.2 - 3)
        (scaled.mergeSort fun a b => decide (b.allocationPct ≤ a.allocationPct)) := rfl
  have hcappedP : ∀ s ∈ capped,
      0 ≤ s.allocationPct ∧ s.allocationPct ≤ policy.perAssetCapPct := by
    intro s hs
    rw [hcapped] at hs
    obtain ⟨x, hx, rfl⟩ := List.mem_map.mp hs
    by_cases hgt : x.allocationPct > policy.perAssetCapPct
    · rw [if_pos hgt]
      exact ⟨hasset, le_refl _⟩
    · rw [if_neg hgt]
      exact ⟨hnn x hx, not_lt.mp hgt⟩
  have hscaledP : ∀ s ∈ scaled,
      0 ≤ s.allocationPct ∧ s.allocationPct ≤ policy.perAssetCapPct := by
    intro s hs
    rw [hscaled] at hs
    obtain ⟨x, hx, rfl⟩ := List.mem_map.mp hs
    obtain ⟨hx0, hxc⟩ := hcappedP x hx
    by_cases hTc : bucketTotal capped x.bucket > policy.bucketCaps.get x.bucket
    · rw [if_pos hTc]
      have hT0 : (0 : ℚ) < bucketTotal capped x.bucket :=
        lt_of_le_of_lt (hcaps x.bucket) hTc
      have hk0 : 0 ≤ policy.bucketCaps.get x.bucket / bucketTotal capped x.bucket :=
        div_nonneg (hcaps x.bucket) hT0.le
      have hk1 : policy.bucketCaps.get x.bucket / bucketTotal capped x.bucket ≤ 1 :=
        (div_le_one hT0).mpr hTc.le
      refine ⟨mul_nonneg hx0 hk0, ?_⟩
      calc x.allocationPct *
          (policy.bucketCaps.get x.bucket / bucketTotal capped x.bucket) ≤
          x.allocationPct := mul_le_of_le_one_right hx0 hk1
        _ ≤ policy.perAssetCapPct := hxc
    · rw [if_neg hTc]
      exact ⟨hx0, hxc⟩
  have hscaledBT : ∀ b, bucketTotal scaled b ≤ policy.bucketCaps.get b := by
    intro b
    have hbk : ∀ s : AllocationItem,
        ((if bucketTotal capped s.bucket > policy.bucketCaps.get s.bucket then
          { s with allocationPct :=
              s.allocationPct *
                (policy.bucketCaps.get s.bucket / bucketTotal capped s.bucket) }
        else s) : AllocationItem).bucket = s.bucket := by
      intro s
      by_cases hTc : bucketTotal capped s.bucket > policy.bucketCaps.get s.bucket
      · rw [if_pos hTc]
      · rw [if_neg hTc]
    have hft : bucketTotal scaled b =
        allocTotal ((capped.filter fun s => s.bucket = b).map fun s =>
          if bucketTotal capped s.bucket > policy.bucketCaps.get s.bucket then
            { s with allocationPct :=
                s.allocationPct *
                  (policy.bucketCaps.get s.bucket / bucketTotal capped s.bucket) }
          else s) := by
      rw [hscaled, bucketTotal_eq_allocTotal_filter, filter_bucket_map _ hbk]
    by_cases hTc : bucketTotal capped b > policy.bucketCaps.get b
    · have hmap : ((capped.filter fun s => s.bucket = b).map fun s =>
          if bucketTotal capped s.bucket > policy.bucketCaps.get s.bucket then
            { s with allocationPct :=
                s.allocationPct *
                  (policy.bucketCaps.get s.bucket / bucketTotal capped s.bucket) }
          else s) =
          (capped.filter fun s => s.bucket = b).map fun s =>
            { s with allocationPct :=
                s.allocationPct * (policy.bucketCaps.get b / bucketTotal capped b) } := by
        apply List.map_congr_left
        intro x hx
        have hxb : x.bucket = b := of_decide_eq_true (List.mem_filter.mp hx).2
        rw [hxb, if_pos hTc]
      have hT0 : (0 : ℚ) < bucketTotal capped b := lt_of_le_of_lt (hcaps b) hTc
      have hTc1 : bucketTotal capped b * (policy.bucketCaps.get b / bucketTotal capped b) =
          policy.bucketCaps.get b := by
        have hne : bucketTotal capped b ≠ 0 := ne_of_gt hT0
        field_simp
      rw [hft, hmap, allocTotal_scale, ← bucketTotal_eq_allocTotal_filter, hTc1]
    · have hmap : ((capped.filter fun s => s.bucket = b).map fun s =>
          if bucketTotal capped s.bucket > policy.bucketCaps.get s.bucket then
            { s with allocationPct :=
                s.allocationPct *
                  (policy.bucketCaps.get s.bucket / bucketTotal capped s.bucket) }
          else s) = (capped.filter fun s => s.bucket = b).map id := by
        apply List.map_congr_left
        intro x hx
        have hxb : x.bucket = b := of_decide_eq_true (List.mem_filter.mp hx).2
        rw [hxb, if_neg hTc]
        rfl
      rw [hft, hmap, List.map_id, ← bucketTotal_eq_allocTotal_filter]
      exact not_lt.mp hTc
  constructor
  · intro s hs
    rw [hres] at hs
    have hs1 : s ∈ scaled.mergeSort fun a b => decide (b.allocationPct ≤ a.allocationPct) :=
      (jsSlice0_sublist _ _).subset hs
    have hs2 : s ∈ scaled := (List.mergeSort_perm scaled _).mem_iff.mp hs1
    exact hscaledP s hs2
  · intro b
    rw [hres]
    have hnnSorted : ∀ s ∈ scaled.mergeSort
        (fun a b => decide (b.allocationPct ≤ a.allocationPct)), 0 ≤ s.allocationPct :=
      fun s hs => (hscaledP s ((List.mergeSort_perm scaled _).mem_iff.mp hs)).1
    calc bucketTotal (jsSlice0 (policy.holdingsTargetRange.2 - 3)
          (scaled.mergeSort fun a b => decide (b.allocationPct ≤ a.allocationPct))) b ≤
        bucketTotal (scaled.mergeSort fun a b => decide (b.allocationPct ≤ a.allocationPct)) b :=
          bucketTotal_sublist_le (jsSlice0_sublist _ _) hnnSorted b
      _ = bucketTotal scaled b := bucketTotal_perm (List.mergeSort_perm scaled _) b
      _ ≤ policy.bucketCaps.get b := hscaledBT b

/-- C2 (counterexample): with the Conservative policy and the empty satellite
list (which trivially passes `validateAndCapSatellites`), the composed
portfolio returned by `combineAndValidateAllocations` starts with the BTC row
at `8/15 ≈ 0.533`, strictly above `perAssetCapPct = 0.25`: the deterministic
core rows are never clamped, and the final renormalization scales them up
further. -/
theorem composition_per_asset_cap_counterexample :
    ((combineAndValidateAllocations
        (buildCoreAllocations (buildPolicy sampleIntake) sampleIntake)
        (validateAndCapSatellites [] (buildPolicy sampleIntake))
        (buildPolicy sampleIntake) sampleIntake).head?.map
          fun i => i.allocationPct) = some (8 / 15) ∧
    (buildPolicy sampleIntake).perAssetCapPct = 1 / 4 ∧
    (1 / 4 : ℚ) < 8 / 15 := by
  refine ⟨?_, by norm_num [buildPolicy, sampleIntake, riskProfiles], by norm_num⟩
  norm_num [combineAndValidateAllocations, buildCoreAllocations, buildPolicy,
    sampleIntake, riskProfiles, validateAndCapSatellites, jsSlice0, bucketTotal,
    allocTotal, max_def, List.head?,
    show |(1 / 4 : ℚ)| = 1 / 4 from abs_of_nonneg (by norm_num)]

/-- Witness for the amended C2: a single 50% high-bucket proposal under the
Conservative policy satisfies the hypotheses, so the capped output respects
both cap families. -/
theorem validateAndCapSatellites_respects_caps_witness :
    (∀ s ∈ validateAndCapSatellites capWitnessSatellites (buildPolicy sampleIntake),
      0 ≤ s.allocationPct ∧ s.allocationPct ≤ (buildPolicy sampleIntake).perAssetCapPct) ∧
    (∀ b, bucketTotal (validateAndCapSatellites capWitnessSatellites
      (buildPolicy sampleIntake)) b ≤ (buildPolicy sampleIntake).bucketCaps.get b) :=
  validateAndCapSatellites_respects_caps capWitnessSatellites (buildPolicy sampleIntake)
    (by
      intro s hs
      simp only [capWitnessSatellites, List.mem_singleton] at hs
      rw [hs]
      norm_num [plainSatellite])
    (by norm_num [buildPolicy, sampleIntake, riskProfiles])
    (by
      intro b
      cases b <;> norm_num [buildPolicy, sampleIntake, riskProfiles, BucketCaps.get])

/-- Helper: reading a bucket record after `add` at bucket `b`. -/
theorem BucketCaps.get_add (caps : BucketCaps) (b bq : Bucket) (q : ℚ) :
    (caps.add b q).get bq = caps.get bq + (if b = bq then q else 0) := by
  cases b <;> cases bq <;> simp [BucketCaps.add, BucketCaps.get]

/-- Helper: `bucketTotal` distributes over concatenation. -/
theorem bucketTotal_append (l1 l2 : List AllocationItem) (b : Bucket) :
    bucketTotal (l1 ++ l2) b = bucketTotal l1 b + bucketTotal l2 b := by
  simp [bucketTotal, List.filter_append]

/-- Helper: `bucketTotal` of a singleton. -/
theorem bucketTotal_singleton (x : AllocationItem) (b : Bucket) :
    bucketTotal [x] b = if x.bucket = b then x.allocationPct else 0 := by
  by_cases h : x.bucket = b <;> simp [bucketTotal, h]

/-- Helper: invariants of the `fallbackSatelliteSelection` loop.  Along the
fold, every pushed satellite carries exactly the per-satellite allocation
`min(targetPerSat, perAssetCapPct)`, the running `bucketLimits` record equals
the bucket totals of the pushed list, and each running limit stays below
`bucketCaps[bucket] + allocation` — the push guard only checks the limit
before adding, so a bucket may overshoot its cap by strictly less than one
allocation. -/
theorem fallbackStep_fold_inv (policy : PolicyData) (targetPerSat : ℚ)
    (cands : List Candidate) (st : List AllocationItem × BucketCaps)
    (hpct : ∀ s ∈ st.1, s.allocationPct = min targetPerSat policy.perAssetCapPct)
    (hcoh : ∀ b, st.2.get b = bucketTotal st.1 b)
    (hbnd : ∀ b, st.2.get b ≤
      policy.bucketCaps.get b + min targetPerSat policy.perAssetCapPct) :
    (∀ s ∈ (cands.foldl (fallbackStep policy targetPerSat) st).1,
      s.allocationPct = min targetPerSat policy.perAssetCapPct) ∧
    (∀ b, (cands.foldl (fallbackStep policy targetPerSat) st).2.get b =
      bucketTotal (cands.foldl (fallbackStep policy targetPerSat) st).1 b) ∧
    (∀ b, (cands.foldl (fallbackStep policy targetPerSat) st).2.get b ≤
      policy.bucketCaps.get b + min targetPerSat policy.perAssetCapPct) := by
  induction cands generalizing st with
  | nil => exact ⟨hpct, hcoh, hbnd⟩
  | cons c cs ih =>
      simp only [List.foldl_cons]
      by_cases hc : st.2.get (bucketOfVolatility c.volatility30d) <
          policy.bucketCaps.get (bucketOfVolatility c.volatility30d)
      · have hstep : fallbackStep policy targetPerSat st c =
            (st.1 ++
              [{ coinId := c.coinId, symbol := c.symbol, name := c.name
                 role := .satellite, bucket := bucketOfVolatility c.volatility30d
                 allocationPct := min targetPerSat policy.perAssetCapPct
                 reasons := ["Score: " ++ toString c.totalScore, "Trend: " ++ c.trend]
                 risks := ["Market volatility", "Project execution risk"]
                 dcaAmountUsd := 0, dcaCadence := "Monthly" }],
              st.2.add (bucketOfVolatility c.volatility30d)
                (min targetPerSat policy.perAssetCapPct)) := by
          unfold fallbackStep
          rw [if_pos hc]
        rw [hstep]
        apply ih
        · intro s hs
          rcases List.mem_append.mp hs with h | h
          · exact hpct s h
          · rw [List.mem_singleton.mp h]
        · intro b
          rw [BucketCaps.get_add, bucketTotal_append, bucketTotal_singleton, hcoh b]
        · intro b
          rw [BucketCaps.get_add]
          by_cases hbb : bucketOfVolatility c.volatility30d = b
          · rw [if_pos hbb, ← hbb]
            exact add_le_add_right (le_of_lt hc) _
          · rw [if_neg hbb]
            linarith [hbnd b]
      · have hstep : fallbackStep policy targetPerSat st c = st := by
          unfold fallbackStep
          rw [if_neg hc]
        rw [hstep]
        exact ih st hpct hcoh hbnd

/-- Helper: the fallback loop never empties its accumulated list. -/
theorem fallbackStep_fold_ne (policy : PolicyData) (targetPerSat : ℚ)
    (cands : List Candidate) (st : List AllocationItem × BucketCaps)
    (hne : st.1 ≠ []) :
    (cands.foldl (fallbackStep policy targetPerSat) st).1 ≠ [] := by
  induction cands generalizing st with
  | nil => exact hne
  | cons c cs ih =>
      simp only [List.foldl_cons]
      apply ih
      unfold fallbackStep
      by_cases hc : st.2.get (bucketOfVolatility c.volatility30d) <
          policy.bucketCaps.get (bucketOfVolatility c.volatility30d)
      · rw [if_pos hc]
        simp
      · rw [if_neg hc]
        exact hne

/-- Helper: a `jsSlice0` with positive bound keeps the head. -/
theorem jsSlice0_cons {α : Type} (n : ℤ) (hn : 1 ≤ n) (x : α) (xs : List α) :
    jsSlice0 n (x :: xs) = x :: xs.take (n.toNat - 1) := by
  unfold jsSlice0
  rw [if_pos (by linarith)]
  have hm : n.toNat = (n.toNat - 1) + 1 := by omega
  rw [hm, List.take_succ_cons, Nat.add_sub_cancel]

/-- Helper: every survivor of `filterCandidates` sits in a bucket whose policy
cap is nonzero (the bucket-restriction test would have dropped it otherwise). -/
theorem filterCandidates_bucket_cap_ne_zero (ranked : List Candidate)
    (intake : IntakeData) (policy : PolicyData) (c : Candidate)
    (hc : c ∈ filterCandidates ranked intake policy) :
    policy.bucketCaps.get (bucketOfVolatility c.volatility30d) ≠ 0 := by
  simp only [filterCandidates] at hc
  have hp := (List.mem_filter.mp hc).2
  split_ifs at hp
  all_goals simp_all

/-- Helper: every resolved policy has a nonnegative per-asset cap and
nonnegative bucket caps (inherited from the presets). -/
theorem buildPolicy_caps_nonneg (intake : IntakeData) :
    0 ≤ (buildPolicy intake).perAssetCapPct ∧
    ∀ b, 0 ≤ (buildPolicy intake).bucketCaps.get b := by
  rcases hrt : intake.riskTolerance with _ | _ | _ <;>
    · constructor
      · norm_num [buildPolicy, riskProfiles, hrt]
      · intro b
        cases b <;> norm_num [buildPolicy, riskProfiles, hrt, BucketCaps.get]

/-- Helper: the deterministic core rows always have positive total. -/
theorem buildCoreAllocations_total_pos (intake : IntakeData) :
    0 < allocTotal (buildCoreAllocations (buildPolicy intake) intake) := by
  obtain ⟨hb, he, hs⟩ := buildPolicy_targets_positive intake
  simp only [buildCoreAllocations, if_pos hs]
  simp only [allocTotal, List.map_cons, List.map_nil, List.sum_cons, List.sum_nil]
  linarith

/-- C8 (amended): when the advisory response fails, `selectSatellitesWithAI`
falls back to `fallbackSatelliteSelection`, and for every non-empty filtered
candidate list (with at least one satellite slot and a nonnegative satellite
target) the fallback returns a non-empty list in which every item's
`allocationPct` is nonnegative and at most `perAssetCapPct`; each bucket's
total may overshoot `bucketCaps[bucket]` by strictly less than one
per-satellite allocation `min(satelliteTarget/maxSatellites, perAssetCapPct)`
(the push guard only checks the running total before adding — see the
counterexample), and the overall composed portfolio still sums to 1.0 within
the 1% tolerance. -/
theorem fallbackSatelliteSelection_guarantees
    (ranked : List Candidate) (intake : IntakeData) (candidates : List Candidate)
    (hcand : candidates = filterCandidates ranked intake (buildPolicy intake))
    (hne : candidates ≠ [])
    (hmax : 1 ≤ (buildPolicy intake).holdingsTargetRange.2 - 3)
    (hsatpos : 0 ≤ (buildPolicy intake).satelliteTargetPct) :
    fallbackSatelliteSelection candidates (buildPolicy intake) ≠ [] ∧
    (∀ s ∈ fallbackSatelliteSelection candidates (buildPolicy intake),
      0 ≤ s.allocationPct ∧ s.allocationPct ≤ (buildPolicy intake).perAssetCapPct) ∧
    (∀ b, bucketTotal (fallbackSatelliteSelection candidates (buildPolicy intake)) b ≤
      (buildPolicy intake).bucketCaps.get b +
        min ((buildPolicy intake).satelliteTargetPct /
            ((((buildPolicy intake).holdingsTargetRange.2 - 3 : ℤ) : ℚ)))
          (buildPolicy intake).perAssetCapPct) ∧
    (∀ e : String, selectSatellitesWithAI (.error e) candidates (buildPolicy intake) =
      fallbackSatelliteSelection candidates (buildPolicy intake)) ∧
    |allocTotal (combineAndValidateAllocations
        (buildCoreAllocations (buildPolicy intake) intake)
        (fallbackSatelliteSelection candidates (buildPolicy intake))
        (buildPolicy intake) intake) - 1| ≤ 1 / 100 := by
  have hfb : fallbackSatelliteSelection candidates (buildPolicy intake) =
      ((jsSlice0 ((buildPolicy intake).holdingsTargetRange.2 - 3) candidates).foldl
        (fallbackStep (buildPolicy intake)
          ((buildPolicy intake).satelliteTargetPct /
            ((((buildPolicy intake).holdingsTargetRange.2 - 3 : ℤ) : ℚ))))
        ([], ⟨0, 0, 0⟩)).1 := rfl
  obtain ⟨hassetnn, hcapsnn⟩ := buildPolicy_caps_nonneg intake
  have halloc : 0 ≤ min ((buildPolicy intake).satelliteTargetPct /
      ((((buildPolicy intake).holdingsTargetRange.2 - 3 : ℤ) : ℚ)))
      (buildPolicy intake).perAssetCapPct := by
    apply le_min _ hassetnn
    apply div_nonneg hsatpos
    have h0 : (0 : ℤ) ≤ (buildPolicy intake).holdingsTargetRange.2 - 3 := by linarith
    exact_mod_cast h0
  have hzget : ∀ b : Bucket, (⟨0, 0, 0⟩ : BucketCaps).get b = 0 := by
    intro b
    cases b <;> rfl
  obtain ⟨hA, hB, hC⟩ := fallbackStep_fold_inv (buildPolicy intake)
    ((buildPolicy intake).satelliteTargetPct /
      ((((buildPolicy intake).holdingsTargetRange.2 - 3 : ℤ) : ℚ)))
    (jsSlice0 ((buildPolicy intake).holdingsTargetRange.2 - 3) candidates)
    ([], ⟨0, 0, 0⟩)
    (fun s hs => absurd hs (List.not_mem_nil s))
    (fun b => by rw [hzget b]; rfl)
    (fun b => by rw [hzget b]; exact add_nonneg (hcapsnn b) halloc)
  refine ⟨?_, ?_, ?_, fun e => rfl, ?_⟩
  · obtain ⟨c0, rest, hcr⟩ := List.exists_cons_of_ne_nil hne
    have hc0mem : c0 ∈ candidates := by
      rw [hcr]
      exact List.mem_cons_self c0 rest
    have hcap0 : (buildPolicy intake).bucketCaps.get
        (bucketOfVolatility c0.volatility30d) ≠ 0 :=
      filterCandidates_bucket_cap_ne_zero ranked intake _ c0 (hcand ▸ hc0mem)
    have hcappos : 0 < (buildPolicy intake).bucketCaps.get
        (bucketOfVolatility c0.volatility30d) :=
      lt_of_le_of_ne (hcapsnn _) (Ne.symm hcap0)
    rw [hfb, hcr, jsSlice0_cons _ hmax]
    simp only [List.foldl_cons]
    apply fallbackStep_fold_ne
    unfold fallbackStep
    rw [if_pos (by rw [hzget]; exact hcappos)]
    simp
  · intro s hs
    rw [hfb] at hs
    rw [hA s hs]
    exact ⟨halloc, min_le_right _ _⟩
  · intro b
    rw [hfb, ← hB b]
    exact hC b
  · apply combineAndValidateAllocations_total
    rw [allocTotal_append]
    have h1 := buildCoreAllocations_total_pos intake
    have h2 : 0 ≤ allocTotal (fallbackSatelliteSelection candidates (buildPolicy intake)) := by
      apply allocTotal_nonneg
      intro s hs
      rw [hA s (hfb ▸ hs)]
      exact halloc
    linarith

/-- C8 (counterexample): seven high-volatility candidates under the Aggressive
policy — the fallback pushes a seventh high-bucket satellite while the running
total `18/65` is still below the `0.30` cap, ending at `21/65 ≈ 0.323`, so the
high bucket's total strictly exceeds `bucketCaps.High = 0.30`. -/
theorem fallback_bucket_overflow_counterexample :
    bucketTotal (fallbackSatelliteSelection highVolCandidates
      (buildPolicy aggressiveIntake)) Bucket.High = 21 / 65 ∧
    (buildPolicy aggressiveIntake).bucketCaps.get Bucket.High = 3 / 10 ∧
    (3 / 10 : ℚ) < 21 / 65 := by
  refine ⟨?_,
    by norm_num [buildPolicy, aggressiveIntake, riskProfiles, BucketCaps.get],
    by norm_num⟩
  norm_num [fallbackSatelliteSelection, fallbackStep, highVolCandidates,
    sampleCandidate, buildPolicy, aggressiveIntake, riskProfiles, jsSlice0,
    bucketOfVolatility, BucketCaps.get, BucketCaps.add, bucketTotal, min_def,
    max_def, List.foldl, List.take]

/-- Witness for the amended C8: a one-coin ranked universe that survives
`filterCandidates` under the Aggressive policy. -/
theorem fallbackSatelliteSelection_guarantees_witness :
    fallbackSatelliteSelection witnessCandidates (buildPolicy aggressiveIntake) ≠ [] ∧
    (∀ s ∈ fallbackSatelliteSelection witnessCandidates (buildPolicy aggressiveIntake),
      0 ≤ s.allocationPct ∧
        s.allocationPct ≤ (buildPolicy aggressiveIntake).perAssetCapPct) ∧
    (∀ b, bucketTotal (fallbackSatelliteSelection witnessCandidates
        (buildPolicy aggressiveIntake)) b ≤
      (buildPolicy aggressiveIntake).bucketCaps.get b +
        min ((buildPolicy aggressiveIntake).satelliteTargetPct /
            ((((buildPolicy aggressiveIntake).holdingsTargetRange.2 - 3 : ℤ) : ℚ)))
          (buildPolicy aggressiveIntake).perAssetCapPct) ∧
    (∀ e : String, selectSatellitesWithAI (.error e) witnessCandidates
        (buildPolicy aggressiveIntake) =
      fallbackSatelliteSelection witnessCandidates (buildPolicy aggressiveIntake)) ∧
    |allocTotal (combineAndValidateAllocations
        (buildCoreAllocations (buildPolicy aggressiveIntake) aggressiveIntake)
        (fallbackSatelliteSelection witnessCandidates (buildPolicy aggressiveIntake))
        (buildPolicy aggressiveIntake) aggressiveIntake) - 1| ≤ 1 / 100 :=
  fallbackSatelliteSelection_guarantees rankedWitnessCoins aggressiveIntake
    witnessCandidates rfl
    (by
      have heval : witnessCandidates = rankedWitnessCoins := by
        norm_num [witnessCandidates, filterCandidates, rankedWitnessCoins,
          sampleCandidate, aggressiveIntake, buildPolicy, riskProfiles,
          bucketOfVolatility, BucketCaps.get, List.findIdx, List.findIdx_cons,
          List.contains, String.reduceEq, max_def]
        decide
      rw [heval, rankedWitnessCoins]
      simp)
    (by norm_num [buildPolicy, aggressiveIntake])
    (by norm_num [buildPolicy, aggressiveIntake, riskProfiles, max_def])

/-- Helper: dropping a prefix preserves a strictly increasing chain. -/
theorem chain'_lt_drop (l : List ℚ) (hch : l.Chain' (· < ·)) (n : ℕ) :
    (l.drop n).Chain' (· < ·) := by
  induction n with
  | zero => simpa using hch
  | succ n ih =>
      rw [← List.tail_drop]
      exact ih.tail

/-- Helper: successive differences of a strictly increasing list are positive. -/
theorem seqDiffs_pos : ∀ (l : List ℚ), l.Chain' (· < ·) → ∀ d ∈ seqDiffs l, 0 < d
  | [], _, d, hd => by simp [seqDiffs] at hd
  | [_], _, d, hd => by simp [seqDiffs] at hd
  | a :: b :: rest, hch, d, hd => by
      rw [show seqDiffs (a :: b :: rest) = (b - a) :: seqDiffs (b :: rest) from rfl] at hd
      rcases List.mem_cons.mp hd with h | h
      · have hab : a < b := (List.chain'_cons.mp hch).1
        rw [h]
        linarith
      · exact seqDiffs_pos (b :: rest) (List.chain'_cons.mp hch).2 d h

/-- Helper: in a strictly increasing list every element is at most the last. -/
theorem chain'_le_getLast : ∀ (l : List ℚ) (h : l ≠ []),
    l.Chain' (· < ·) → ∀ x ∈ l, x ≤ l.getLast h
  | [], h, _, _, _ => absurd rfl h
  | [a], _, _, x, hx => by
      simp only [List.mem_singleton] at hx
      subst hx
      exact le_refl x
  | a :: b :: rest, h, hch, x, hx => by
      have hne2 : (b :: rest) ≠ [] := List.cons_ne_nil _ _
      rcases List.mem_cons.mp hx with h1 | h1
      · have hab : a < b := (List.chain'_cons.mp hch).1
        have hb : b ≤ (b :: rest).getLast hne2 :=
          chain'_le_getLast (b :: rest) hne2 (List.chain'_cons.mp hch).2 b
            (List.mem_cons_self _ _)
        rw [h1]
        exact le_of_lt (lt_of_lt_of_le hab hb)
      · exact chain'_le_getLast (b :: rest) hne2 (List.chain'_cons.mp hch).2 x h1

/-- Helper: a strictly increasing list of length ≥ 2 has sum strictly below
`length × last` (its head is strictly below the last element). -/
theorem chain'_sum_lt (l : List ℚ) (hne : l ≠ []) (hch : l.Chain' (· < ·))
    (h2 : 2 ≤ l.length) : l.sum < (l.length : ℚ) * l.getLast hne := by
  obtain ⟨a, t, rfl⟩ := List.exists_cons_of_ne_nil hne
  have htne : t ≠ [] := by
    intro h
    rw [h] at h2
    simp at h2
  have hall : ∀ x ∈ (a :: t), x ≤ (a :: t).getLast hne :=
    chain'_le_getLast _ hne hch
  have hhead : a < (a :: t).getLast hne := by
    obtain ⟨b, t2, rfl⟩ := List.exists_cons_of_ne_nil htne
    have hab : a < b := (List.chain'_cons.mp hch).1
    have hb : b ≤ (a :: b :: t2).getLast hne := hall b (by simp)
    linarith
  have htsum : t.sum ≤ t.length • ((a :: t).getLast hne) :=
    List.sum_le_card_nsmul t _ (fun x hx => hall x (List.mem_cons_of_mem a hx))
  rw [nsmul_eq_mul] at htsum
  rw [List.sum_cons, List.length_cons]
  calc a + t.sum ≤ a + (t.length : ℚ) * ((a :: t).getLast hne) := by linarith
    _ < (a :: t).getLast hne + (t.length : ℚ) * ((a :: t).getLast hne) := by linarith
    _ = ((t.length + 1 : ℕ) : ℚ) * ((a :: t).getLast hne) := by push_cast; ring

/-- Helper: constant volumes always give zero volume momentum. -/
theorem calculateVolumeMomentum_replicate (n : ℕ) (c : ℚ) (hn : 10 ≤ n) :
    calculateVolumeMomentum (List.replicate n c) = 0 := by
  rw [calculateVolumeMomentum,
    if_neg (by simp only [List.length_replicate]; omega)]
  simp only [List.length_replicate, List.drop_replicate, List.take_replicate,
    List.sum_replicate]
  have h5 : n - (n - 5) = 5 := by omega
  have h10 : n - (n - 10) = 10 := by omega
  rw [h5, h10]
  have hmin : (5 : ℕ) ⊓ 10 = 5 := by norm_num
  rw [hmin]
  have havg : (5 • c : ℚ) / ((5 : ℕ) : ℚ) = c := by
    rw [nsmul_eq_mul]
    push_cast
    ring
  rw [havg]
  by_cases hc : 0 < c
  · rw [if_pos hc, sub_self, zero_div, zero_mul]
  · rw [if_neg hc]

/-- Helper: with RSI at 100 (an overbought/bearish vote), the current price
not strictly above `sma50` (a second bearish vote) and zero volume momentum
(no bullish volume vote), at most two bullish votes remain, so the trend can
never be bullish. -/
theorem generateSignals_not_bullish (ti : TechnicalIndicators)
    (mom : MomentumIndicators) (cp : ℚ)
    (hrsi : ti.rsi = 100) (hsma : ti.sma50 = cp) (hvm : mom.volumeMomentum = 0) :
    (generateSignals ti mom cp).1 ≠ Trend.bullish := by
  simp only [generateSignals, hrsi, hsma, hvm, lt_self_iff_false, gt_iff_lt]
  norm_num
  split_ifs <;> decide

/-- Helper: full analysis of scenario A — on any strictly increasing 40-point
series with constant volume, RSI is 100, the indicator bundle is defined, the
current price is strictly above SMA20 but not strictly above the SMA50
fallback, and the generated trend is never bullish. -/
theorem scenarioA_analysis (sqrtFn : ℚ → ℚ) (prices : List ℚ) (c : ℚ)
    (hlen : prices.length = 40) (hchain : prices.Chain' (· < ·)) :
    calculateRSI prices 14 = 100 ∧
    (calculateTechnicalIndicators sqrtFn prices (List.replicate 40 c)).isSome = true ∧
    ∀ ti cp,
      calculateTechnicalIndicators sqrtFn prices (List.replicate 40 c) = some ti →
      prices.getLast? = some cp →
      (cp > ti.sma20 ∧ ¬ cp > ti.sma50 ∧
        (generateSignals ti (calculateMomentum prices (List.replicate 40 c)) cp).1 ≠
          Trend.bullish) := by
  have hne : prices ≠ [] := by
    intro h
    rw [h] at hlen
    simp at hlen
  have hl0 : rsiLosses prices 14 = 0 := by
    rw [rsiLosses]
    apply List.sum_eq_zero
    intro x hx
    obtain ⟨d, hd, rfl⟩ := List.mem_map.mp hx
    rw [rsiChanges] at hd
    have hdpos : 0 < d := seqDiffs_pos _ (chain'_lt_drop prices hchain _) d hd
    rw [if_pos hdpos]
  have hrsi : calculateRSI prices 14 = 100 := by
    have hval : calculateRSI prices 14 =
        if rsiLosses prices 14 / ((14 : ℕ) : ℚ) = 0 then 100
        else 100 - 100 / (1 + rsiGains prices 14 / ((14 : ℕ) : ℚ) /
          (rsiLosses prices 14 / ((14 : ℕ) : ℚ))) := by
      rw [calculateRSI, if_neg (by omega)]
    rw [hval, if_pos (by rw [hl0, zero_div])]
  have h20 : calculateSMA prices 20 =
      some ((prices.drop 20).sum / ((20 : ℕ) : ℚ)) := by
    rw [calculateSMA, if_neg (by omega), hlen]
  have h50 : calculateSMA prices 50 = prices.getLast? := by
    rw [calculateSMA, if_pos (by omega)]
  have he12 : ∃ v, calculateEMA prices 12 = some v := by
    rw [calculateEMA, if_neg (by omega), calculateSMA,
      if_neg (by rw [List.length_take, hlen]; norm_num)]
    exact ⟨_, rfl⟩
  have he26 : ∃ v, calculateEMA prices 26 = some v := by
    rw [calculateEMA, if_neg (by omega), calculateSMA,
      if_neg (by rw [List.length_take, hlen]; norm_num)]
    exact ⟨_, rfl⟩
  obtain ⟨e12, he12⟩ := he12
  obtain ⟨e26, he26⟩ := he26
  have hmacd : calculateMACD prices =
      some { value := e12 - e26, signal := (e12 - e26) * (9 / 10)
             histogram := (e12 - e26) - (e12 - e26) * (9 / 10) } := by
    rw [calculateMACD, he12, he26]
    rfl
  obtain ⟨last, hlast⟩ : ∃ x, prices.getLast? = some x :=
    ⟨prices.getLast hne, List.getLast?_eq_getLast _ hne⟩
  have hbb : ∃ bb, calculateBollingerBands sqrtFn prices 20 = some bb := by
    rw [calculateBollingerBands, h20]
    exact ⟨_, rfl⟩
  obtain ⟨bb, hbb⟩ := hbb
  have hti : calculateTechnicalIndicators sqrtFn prices (List.replicate 40 c) =
      some { rsi := calculateRSI prices 14
             macd := { value := e12 - e26, signal := (e12 - e26) * (9 / 10)
                       histogram := (e12 - e26) - (e12 - e26) * (9 / 10) }
             sma20 := (prices.drop 20).sum / ((20 : ℕ) : ℚ)
             sma50 := last
             ema12 := e12
             ema26 := e26
             bollingerBands := bb
             atr := calculateATR prices 14
             obv := calculateOBV prices (List.replicate 40 c)
             volumeRatio := calculateVolumeRatio (List.replicate 40 c) } := by
    rw [calculateTechnicalIndicators, h20, h50, hlast, he12, he26, hmacd, hbb]
    rfl
  have hd20ne : prices.drop 20 ≠ [] := by
    intro h
    have hh := congrArg List.length h
    rw [List.length_drop, hlen] at hh
    simp at hh
  have hd20len : (prices.drop 20).length = 20 := by
    rw [List.length_drop, hlen]
  have hsum : (prices.drop 20).sum <
      ((prices.drop 20).length : ℚ) * (prices.drop 20).getLast hd20ne :=
    chain'_sum_lt _ hd20ne (chain'_lt_drop prices hchain 20) (by omega)
  have hlast_eq : prices.getLast? = (prices.drop 20).getLast? := by
    conv_lhs => rw [← List.take_append_drop 20 prices]
    rw [List.getLast?_append, List.getLast?_eq_getLast _ hd20ne]
    rfl
  have hcp_eq : last = (prices.drop 20).getLast hd20ne := by
    have hh := hlast
    rw [hlast_eq, List.getLast?_eq_getLast _ hd20ne] at hh
    exact (Option.some_inj.mp hh).symm
  have hsma20lt : (prices.drop 20).sum / ((20 : ℕ) : ℚ) < last := by
    rw [hcp_eq, div_lt_iff₀ (by norm_num : (0 : ℚ) < ((20 : ℕ) : ℚ))]
    calc (prices.drop 20).sum <
        ((prices.drop 20).length : ℚ) * (prices.drop 20).getLast hd20ne := hsum
      _ = (prices.drop 20).getLast hd20ne * ((20 : ℕ) : ℚ) := by
          rw [hd20len]; ring
  refine ⟨hrsi, by rw [hti]; rfl, ?_⟩
  intro ti cp hti2 hcp
  rw [hti] at hti2
  injection hti2 with hti3
  subst hti3
  rw [hlast] at hcp
  injection hcp with hcp2
  subst hcp2
  refine ⟨hsma20lt, lt_irrefl last, ?_⟩
  have hvm : calculateVolumeMomentum (List.replicate 40 c) = 0 :=
    calculateVolumeMomentum_replicate 40 c (by norm_num)
  exact generateSignals_not_bullish _ _ _ hrsi rfl hvm

/-- C9 (amended): for every strictly increasing 40-point price series with
constant volume, `calculateRSI` returns 100 (all changes are gains), and in
the computed indicator bundle the current price is strictly above SMA20 — so
`scoreTechnical` applies that +10 bonus — but it is **not** strictly above
SMA50 (with 40 < 50 points `calculateSMA` falls back to the last price
itself, so the strict `currentPrice > sma50` test fails and that +10 bonus is
not applied), and `generateSignals` never classifies the trend as bullish:
RSI = 100 counts as an overbought/bearish vote, the SMA50 comparison adds a
second bearish vote, and constant volume contributes no bullish volume vote,
leaving at most 2 bullish against at least 2 bearish votes. -/
theorem scenarioA_increasing_series (sqrtFn : ℚ → ℚ) (prices : List ℚ) (c : ℚ)
    (hlen : prices.length = 40) (hchain : prices.Chain' (· < ·)) :
    calculateRSI prices 14 = 100 ∧
    (calculateTechnicalIndicators sqrtFn prices (List.replicate 40 c)).isSome = true ∧
    ∀ ti cp,
      calculateTechnicalIndicators sqrtFn prices (List.replicate 40 c) = some ti →
      prices.getLast? = some cp →
      (cp > ti.sma20 ∧ ¬ cp > ti.sma50 ∧
        (generateSignals ti (calculateMomentum prices (List.replicate 40 c)) cp).1 ≠
          Trend.bullish) :=
  scenarioA_analysis sqrtFn prices c hlen hchain

/-- C9 (counterexample): on the concrete monotonically increasing 40-point
series 1, 2, …, 40 with constant volume 100, the signal pipeline does not
classify the trend as bullish — RSI 100 registers as overbought (bearish),
the price is not strictly above the SMA50 fallback, and the remaining
bullish votes cannot outnumber the bearish ones by more than one. -/
theorem scenarioA_trend_counterexample :
    ((calculateTechnicalIndicators (fun q => q) scenarioAPrices scenarioAVolumes).bind
      fun ti => (scenarioAPrices.getLast?).map
        fun cp => (generateSignals ti
          (calculateMomentum scenarioAPrices scenarioAVolumes) cp).1) ≠
      some Trend.bullish := by
  show ((calculateTechnicalIndicators (fun q => q) scenarioAPrices
      (List.replicate 40 (100 : ℚ))).bind
    fun ti => (scenarioAPrices.getLast?).map
      fun cp => (generateSignals ti
        (calculateMomentum scenarioAPrices (List.replicate 40 (100 : ℚ))) cp).1) ≠
    some Trend.bullish
  obtain ⟨-, -, hmain⟩ := scenarioA_analysis (fun q => q) scenarioAPrices 100 (by decide)
    (by norm_num [scenarioAPrices, List.chain'_cons, List.chain'_singleton])
  cases hti : calculateTechnicalIndicators (fun q => q) scenarioAPrices
      (List.replicate 40 (100 : ℚ)) with
  | none => simp
  | some ti =>
      have hlast : scenarioAPrices.getLast? = some 40 := rfl
      obtain ⟨-, -, hneq⟩ := hmain ti 40 hti hlast
      rw [hlast]
      show some ((generateSignals ti
        (calculateMomentum scenarioAPrices (List.replicate 40 (100 : ℚ))) 40).1) ≠
        some Trend.bullish
      intro habs
      exact hneq (Option.some_inj.mp habs)

/-- Witness for the amended C9 at the concrete series 1, 2, …, 40 with
constant volume 100. -/
theorem scenarioA_increasing_series_witness :
    calculateRSI scenarioAPrices 14 = 100 ∧
    (calculateTechnicalIndicators (fun q => q) scenarioAPrices
      (List.replicate 40 (100 : ℚ))).isSome = true ∧
    ∀ ti cp,
      calculateTechnicalIndicators (fun q => q) scenarioAPrices
        (List.replicate 40 (100 : ℚ)) = some ti →
      scenarioAPrices.getLast? = some cp →
      (cp > ti.sma20 ∧ ¬ cp > ti.sma50 ∧
        (generateSignals ti
          (calculateMomentum scenarioAPrices (List.replicate 40 (100 : ℚ))) cp).1 ≠
          Trend.bullish) :=
  scenarioA_increasing_series (fun q => q) scenarioAPrices 100 (by decide)
    (by norm_num [scenarioAPrices, List.chain'_cons, List.chain'_singleton])
